import Mathlib

/-!
# InstallForge: recipe validation, preflight inference, rendering and export gating

A shallow embedding of `internal/recipe/recipe.go`, `internal/recipe/validate.go`,
`internal/render/render.go` (with the branches of its install template) and the export
handler of `internal/api/handlers.go`.

Go maps (`map[string]interface{}`) are association lists read with "first binding wins";
Go's `interface{}` values coming out of `encoding/json` are the inductive `Value`.
-/

namespace InstallForge

/-! ## Data model (`recipe.go`) -/

/-- Characters that can occur in Go's `%v` rendering of a finite `float64`
(`strconv` format `g`, shortest precision): digits, sign, decimal point and the exponent mark. -/
def isFloatChar (c : Char) : Bool :=
  c.isDigit || c == '.' || c == 'e' || c == '+' || c == '-'

/-- A JSON number decoded into a Go `float64`, observed only through the text that
`fmt.Sprintf("%v", f)` prints for it. That text is never empty and is made of float characters. -/
structure GoFloat where
  text : String
  wf : (text != "" && text.data.all isFloatChar) = true

/-- The dynamic values `encoding/json` stores in an `interface{}`. -/
inductive Value where
  | null
  | bool (b : Bool)
  | num (f : GoFloat)
  | str (s : String)
  | arr (xs : List Value)
  | obj (kvs : List (String × Value))

/-- A Go `map[string]interface{}`: the first binding of a key is the one that counts. -/
abbrev Config := List (String × Value)

/-- The struct `ProjectMeta`. -/
structure ProjectMeta where
  ID : String
  Name : String
  Description : String
  Target : List String
  deriving DecidableEq, Repr

/-- The struct `Step`. -/
structure Step where
  ID : String
  Name : String
  Type_ : String
  Config : Config

/-- The struct `Recipe`; `UpdatedAt` is kept as an uninterpreted instant. -/
structure Recipe where
  SchemaVersion : String
  Project : ProjectMeta
  Vars : List (String × String)
  Steps : List Step
  UpdatedAt : Nat

/-- The struct `Issue`. -/
structure Issue where
  Level : String
  StepID : String
  Message : String
  deriving DecidableEq, Repr

/-! ## Go library behaviour used by the validator -/

/-- Map index expression `m[k]` in its two-result form: `some v` when the key is bound. -/
def mapGet {α : Type} : List (String × α) → String → Option α
  | [], _ => none
  | (k, v) :: rest, key => if k = key then some v else mapGet rest key

/-- Map index expression `cfg[k]` in its one-result form: a missing key gives the nil interface. -/
def mapIndex (cfg : Config) (key : String) : Value :=
  match mapGet cfg key with
  | some v => v
  | none => Value.null

/-- Keeps the first binding of every key. -/
def firstBindings : List (String × String) → List String → List (String × String)
  | [], _ => []
  | (k, v) :: rest, seen =>
    if k ∈ seen then firstBindings rest seen else (k, v) :: firstBindings rest (k :: seen)

/-- Inserts a rendered field into a list sorted by key. -/
def insertField (p : String × String) : List (String × String) → List (String × String)
  | [] => [p]
  | q :: rest => if p.1 < q.1 then p :: q :: rest else q :: insertField p rest

/-- Sorts rendered fields by key, as `fmt` does when it prints a map. -/
def sortFields : List (String × String) → List (String × String)
  | [] => []
  | p :: rest => insertField p (sortFields rest)

/-- Joins pieces with single spaces. -/
def joinSpace : List String → String
  | [] => ""
  | [x] => x
  | x :: y :: rest => x ++ " " ++ joinSpace (y :: rest)

mutual
/-- The text of `fmt.Sprintf("%v", v)`. -/
def fmtV : Value → String
  | Value.null => "<nil>"
  | Value.bool b => if b then "true" else "false"
  | Value.num f => f.text
  | Value.str s => s
  | Value.arr xs => "[" ++ joinSpace (fmtElems xs) ++ "]"
  | Value.obj kvs =>
    "map[" ++ joinSpace ((sortFields (firstBindings (fmtFields kvs) [])).map
      (fun p => p.1 ++ ":" ++ p.2)) ++ "]"
/-- Renders the elements of a slice. -/
def fmtElems : List Value → List String
  | [] => []
  | x :: xs => fmtV x :: fmtElems xs
/-- Renders the values of a map, keeping the keys. -/
def fmtFields : List (String × Value) → List (String × String)
  | [] => []
  | (k, v) :: rest => (k, fmtV v) :: fmtFields rest
end

/-- The rune mapping `unicode.ToLower`: ASCII is handled inline by the Go code, every other
rune goes through the Unicode case tables `tbl` of the Go library. -/
def toLowerRune (tbl : Char → Char) (c : Char) : Char :=
  if c.val < 128 then
    (if 'A' ≤ c ∧ c ≤ 'Z' then Char.ofNat (c.toNat + 32) else c)
  else tbl c

/-- The function `strings.ToLower`. -/
def toLower (tbl : Char → Char) (s : String) : String :=
  String.mk (s.data.map (toLowerRune tbl))

/-! ## The validator (`validate.go`) -/

/-- The helper `contains`: linear search for `value` in `slice`. -/
def contains : List String → String → Bool
  | [], _ => false
  | v :: rest, value => if v = value then true else contains rest value

/-- The map literal `requiredModes`. -/
def requiredModes : List (String × List String) :=
  [("replace", ["fixed", "regex"]),
   ("delete_lines", ["fixed", "regex"]),
   ("rpm_install", ["upgrade", "install"])]

/-- Index expression `requiredModes[k]`: a missing key gives the nil slice. -/
def requiredModesAt (k : String) : List String :=
  match mapGet requiredModes k with
  | some l => l
  | none => []

/-- The closure `add`: appends one issue for the current step. -/
def add (step : Step) (issues : List Issue) (level msg : String) : List Issue :=
  issues ++ [{ Level := level, StepID := step.ID, Message := msg }]

/-- The closure `require`: reports a key that is missing or renders to the empty string. -/
def require (step : Step) (issues : List Issue) (key : String) : List Issue :=
  match mapGet step.Config key with
  | none => add step issues "error" (key ++ " is required")
  | some value =>
    if fmtV value = "" then add step issues "error" (key ++ " is required") else issues

/-- The type assertion `b, _ := v.(bool)`: the boolean itself, and `false` for every value of
another dynamic type. -/
def assertBool : Value → Bool
  | Value.bool b => b
  | _ => false

/-- One iteration of the loop of `Validate`: the `switch` on the step type, threading the
slice `issues` through the calls of `require` and `add`. -/
def validateStep (tbl : Char → Char) (issues : List Issue) (step : Step) : List Issue :=
  let stepType := step.Type_
  let cfg := step.Config
  if stepType = "mkdir" then
    require step issues "path"
  else if stepType = "copy" then
    let issues := require step issues "src"
    require step issues "dest"
  else if stepType = "chmod" then
    let issues := require step issues "path"
    require step issues "mode"
  else if stepType = "chown" then
    let issues := require step issues "path"
    require step issues "owner"
  else if stepType = "extract_tar_gz" ∨ stepType = "extract_zip" then
    let issues := require step issues "src"
    let issues := require step issues "dest"
    match mapGet cfg "creates" with
    | none => add step issues "warn" "creates is not set; idempotency may be improved"
    | some _ => issues
  else if stepType = "rpm_install" then
    let issues := require step issues "rpms"
    let issues := require step issues "mode"
    let modeVal := fmtV (mapIndex cfg "mode")
    if !contains (requiredModesAt "rpm_install") (toLower tbl modeVal) then
      add step issues "error" "mode must be upgrade or install"
    else issues
  else if stepType = "append_lines" then
    let issues := require step issues "file"
    let issues := require step issues "lines"
    match mapGet cfg "backup" with
    | some backup =>
      if !assertBool backup then add step issues "warn" "backup is disabled; risk of data loss"
      else issues
    | none => issues
  else if stepType = "delete_lines" then
    let issues := require step issues "file"
    let issues := require step issues "match"
    let issues := require step issues "mode"
    let modeVal := fmtV (mapIndex cfg "mode")
    let issues :=
      if !contains (requiredModesAt "delete_lines") (toLower tbl modeVal) then
        add step issues "error" "mode must be fixed or regex"
      else issues
    match mapGet cfg "backup" with
    | some backup =>
      if !assertBool backup then add step issues "warn" "backup is disabled; risk of data loss"
      else issues
    | none => issues
  else if stepType = "replace" then
    let issues := require step issues "file"
    let issues := require step issues "pattern"
    let issues := require step issues "replacement"
    let issues := require step issues "mode"
    let modeVal := fmtV (mapIndex cfg "mode")
    let issues :=
      if !contains (requiredModesAt "replace") (toLower tbl modeVal) then
        add step issues "error" "mode must be fixed or regex"
      else issues
    match mapGet cfg "backup" with
    | some backup =>
      if !assertBool backup then add step issues "warn" "backup is disabled; risk of data loss"
      else issues
    | none => issues
  else if stepType = "run_cmd" then
    let issues := require step issues "cmd"
    match mapGet cfg "cwd" with
    | none => add step issues "warn" "cwd is not set; command will run from script directory"
    | some _ => issues
  else if stepType = "service_sysv" then
    let issues := require step issues "src"
    require step issues "name"
  else if stepType = "service_systemd" then
    let issues := require step issues "src"
    require step issues "name"
  else if stepType = "auto_service" then
    let issues := require step issues "name"
    let issues := require step issues "sysv_src"
    require step issues "systemd_src"
  else
    add step issues "warn" ("unknown step type " ++ stepType)

/-- The function `Validate`: the loop over `r.Steps`, starting from the nil slice. -/
def Validate (tbl : Char → Char) (r : Recipe) : List Issue :=
  r.Steps.foldl (validateStep tbl) []

/-! ## Preflight inference (`render.go`) -/

/-- Map assignment `checks[k] = v` on a map without repeated keys. -/
def mapSet (m : List (String × Bool)) (k : String) (v : Bool) : List (String × Bool) :=
  match m with
  | [] => [(k, v)]
  | (k', v') :: rest => if k' = k then (k, v) :: rest else (k', v') :: mapSet rest k v

/-- One iteration of the first loop of `gatherPreflight`: the `switch` on the step type. -/
def preflightStep (checks : List (String × Bool)) (s : Step) : List (String × Bool) :=
  if s.Type_ = "extract_zip" then mapSet checks "unzip" true
  else if s.Type_ = "extract_tar_gz" then mapSet checks "tar" true
  else if s.Type_ = "rpm_install" then mapSet checks "rpm" true
  else if s.Type_ = "append_lines" ∨ s.Type_ = "delete_lines" ∨ s.Type_ = "replace" then
    let checks := mapSet checks "sed" true
    mapSet checks "grep" true
  else if s.Type_ = "service_systemd" ∨ s.Type_ = "auto_service" then
    mapSet checks "systemctl" true
  else if s.Type_ = "service_sysv" then mapSet checks "chkconfig" true
  else checks

/-- The function `gatherPreflight`. The second loop ranges over the map `checks`; Go leaves the
order of that enumeration open, here the keys come in the order of their first assignment. -/
def gatherPreflight (r : Recipe) : List String :=
  (r.Steps.foldl preflightStep []).map Prod.fst

/-! ## Rendering (`render.go`) -/

/-- The lines of the constant `installTemplate`; each one ends with a newline in the source. -/
def installTemplateLines : List String :=
  ["#!/bin/bash",
   "set -eu",
   "",
   "SCRIPT_DIR=$(cd \"$(dirname \"$0\")\" && pwd)",
   "ASSET_DIR=\"$SCRIPT_DIR/assets\"",
   "LOG_DIR=\"$\x7bLOG_DIR:-\x7b\x7b index .Recipe.Vars \"LOG_DIR\"\x7d\x7d\x7d\"",
   "LOG_FILE=\"$LOG_DIR/install-$(date +%Y%m%d-%H%M%S).log\"",
   "",
   "mkdir -p \"$LOG_DIR\"",
   "exec > >(tee -a \"$LOG_FILE\") 2>&1",
   "",
   "echo \"[InstallForge] Generated at \x7b\x7b.GeneratedAt\x7d\x7d\"",
   "",
   "if [ \"$EUID\" -ne 0 ]; then",
   "  echo \"Please run as root (sudo ./install.sh)\" >&2",
   "  exit 1",
   "fi",
   "",
   "# Preflight checks",
   "missing=()",
   "\x7b\x7b- range .Preflight \x7d\x7d",
   "if ! command -v \x7b\x7b.\x7d\x7d >/dev/null 2>&1; then",
   "  missing+=(\"\x7b\x7b.\x7d\x7d\")",
   "fi",
   "\x7b\x7b- end \x7d\x7d",
   "if [ $\x7b#missing[@]\x7d -ne 0 ]; then",
   "  echo \"Missing required commands: $\x7bmissing[*]\x7d\" >&2",
   "  exit 1",
   "fi",
   "",
   "step_idx=0",
   "total=\x7b\x7blen .Recipe.Steps\x7d\x7d",
   "",
   "run_step() \x7b",
   "  local id=\"$1\"",
   "  local type=\"$2\"",
   "  local desc=\"$3\"",
   "  echo \"[$((step_idx+1))/$total] step=$id type=$type name=$desc\"",
   "\x7d",
   "",
   "\x7b\x7brange .Recipe.Steps\x7d\x7d",
   "run_step \"\x7b\x7b.ID\x7d\x7d\" \"\x7b\x7b.Type\x7d\x7d\" \"\x7b\x7b.Name\x7d\x7d\"",
   "case \"\x7b\x7b.Type\x7d\x7d\" in",
   "  mkdir)",
   "    mkdir -p \"\x7b\x7bindex .Config \"path\"\x7d\x7d\"",
   "    ;;",
   "  copy)",
   "    \x7b\x7bif index .Config \"overwrite\"\x7d\x7dcp -f\x7b\x7belse\x7d\x7dcp -n\x7b\x7bend\x7d\x7d \"\x7b\x7bindex .Config \"src\"\x7d\x7d\" \"\x7b\x7bindex .Config \"dest\"\x7d\x7d\"",
   "    \x7b\x7bif index .Config \"mode\"\x7d\x7dchmod \x7b\x7bindex .Config \"mode\"\x7d\x7d \"\x7b\x7bindex .Config \"dest\"\x7d\x7d\"\x7b\x7bend\x7d\x7d",
   "    ;;",
   "  chmod)",
   "    chmod \x7b\x7bindex .Config \"mode\"\x7d\x7d \"\x7b\x7bindex .Config \"path\"\x7d\x7d\"",
   "    ;;",
   "  chown)",
   "    chown \x7b\x7bindex .Config \"owner\"\x7d\x7d\x7b\x7bif index .Config \"group\"\x7d\x7d:\x7b\x7bindex .Config \"group\"\x7d\x7d\x7b\x7bend\x7d\x7d \"\x7b\x7bindex .Config \"path\"\x7d\x7d\"",
   "    ;;",
   "  extract_tar_gz)",
   "    if [ -n \"\x7b\x7bindex .Config \"creates\"\x7d\x7d\" ] && [ -e \"\x7b\x7bindex .Config \"creates\"\x7d\x7d\" ]; then",
   "      echo \"skip extract_tar_gz because creates exists\"",
   "    else",
   "      mkdir -p \"\x7b\x7bindex .Config \"dest\"\x7d\x7d\"",
   "      tar -xzf \"\x7b\x7bindex .Config \"src\"\x7d\x7d\" -C \"\x7b\x7bindex .Config \"dest\"\x7d\x7d\"",
   "    fi",
   "    ;;",
   "  extract_zip)",
   "    if [ -n \"\x7b\x7bindex .Config \"creates\"\x7d\x7d\" ] && [ -e \"\x7b\x7bindex .Config \"creates\"\x7d\x7d\" ]; then",
   "      echo \"skip extract_zip because creates exists\"",
   "    else",
   "      mkdir -p \"\x7b\x7bindex .Config \"dest\"\x7d\x7d\"",
   "      unzip -o \"\x7b\x7bindex .Config \"src\"\x7d\x7d\" -d \"\x7b\x7bindex .Config \"dest\"\x7d\x7d\"",
   "    fi",
   "    ;;",
   "  rpm_install)",
   "    for rpm in \x7b\x7brange $i, $v := index .Config \"rpms\"\x7d\x7d \"\x7b\x7b$v\x7d\x7d\"\x7b\x7bend\x7d\x7d; do",
   "      if [ \"\x7b\x7bindex .Config \"mode\"\x7d\x7d\" = \"upgrade\" ]; then",
   "        rpm -Uvh $rpm \x7b\x7bif index .Config \"nodeps\"\x7d\x7d--nodeps\x7b\x7bend\x7d\x7d",
   "      else",
   "        rpm -ivh $rpm \x7b\x7bif index .Config \"nodeps\"\x7d\x7d--nodeps\x7b\x7bend\x7d\x7d",
   "      fi",
   "    done",
   "    ;;",
   "  append_lines)",
   "    target=\"\x7b\x7bindex .Config \"file\"\x7d\x7d\"",
   "    cp -a \"$target\" \"$target.bak.$(date +%s)\"",
   "    while IFS= read -r line; do",
   "      if \x7b\x7bif index .Config \"unique\"\x7d\x7d! grep -Fqx \"$line\" \"$target\"; then\x7b\x7belse\x7d\x7dtrue; then\x7b\x7bend\x7d\x7d",
   "        echo \"$line\" >> \"$target\"",
   "      fi",
   "    done <<'LINES'",
   "\x7b\x7brange index .Config \"lines\"\x7d\x7d\x7b\x7b.\x7d\x7d",
   "\x7b\x7bend\x7d\x7dLINES",
   "    ;;",
   "  delete_lines)",
   "    target=\"\x7b\x7bindex .Config \"file\"\x7d\x7d\"",
   "    cp -a \"$target\" \"$target.bak.$(date +%s)\"",
   "    if [ \"\x7b\x7bindex .Config \"mode\"\x7d\x7d\" = \"regex\" ]; then",
   "      grep -Ev \"\x7b\x7bindex .Config \"match\"\x7d\x7d\" \"$target\" > \"$target.tmp\" && mv \"$target.tmp\" \"$target\"",
   "    else",
   "      grep -Fv \"\x7b\x7bindex .Config \"match\"\x7d\x7d\" \"$target\" > \"$target.tmp\" && mv \"$target.tmp\" \"$target\"",
   "    fi",
   "    ;;",
   "  replace)",
   "    target=\"\x7b\x7bindex .Config \"file\"\x7d\x7d\"",
   "    cp -a \"$target\" \"$target.bak.$(date +%s)\"",
   "    if [ \"\x7b\x7bindex .Config \"mode\"\x7d\x7d\" = \"regex\" ]; then",
   "      sed -r 's/\x7b\x7bindex .Config \"pattern\"\x7d\x7d/\x7b\x7bindex .Config \"replacement\"\x7d\x7d/g' \"$target\" > \"$target.tmp\" && mv \"$target.tmp\" \"$target\"",
   "    else",
   "      sed 's/\x7b\x7bindex .Config \"pattern\"\x7d\x7d/\x7b\x7bindex .Config \"replacement\"\x7d\x7d/g' \"$target\" > \"$target.tmp\" && mv \"$target.tmp\" \"$target\"",
   "    fi",
   "    ;;",
   "  run_cmd)",
   "    \x7b\x7bif index .Config \"cwd\"\x7d\x7d(cd \"\x7b\x7bindex .Config \"cwd\"\x7d\x7d\" && \x7b\x7bindex .Config \"cmd\"\x7d\x7d)\x7b\x7belse\x7d\x7d\x7b\x7bindex .Config \"cmd\"\x7d\x7d\x7b\x7bend\x7d\x7d",
   "    ;;",
   "  service_sysv)",
   "    cp \"\x7b\x7bindex .Config \"src\"\x7d\x7d\" \"/etc/init.d/\x7b\x7bindex .Config \"name\"\x7d\x7d\"",
   "    chmod +x \"/etc/init.d/\x7b\x7bindex .Config \"name\"\x7d\x7d\"",
   "    if command -v chkconfig >/dev/null 2>&1; then",
   "      chkconfig --add \x7b\x7bindex .Config \"name\"\x7d\x7d",
   "      chkconfig \x7b\x7bindex .Config \"name\"\x7d\x7d on",
   "    else",
   "      echo \"chkconfig not found; ensure service enabled manually\" >&2",
   "    fi",
   "    \x7b\x7bif or (not (index .Config \"start\")) (eq (index .Config \"start\") false)\x7d\x7dtrue\x7b\x7belse\x7d\x7dservice \x7b\x7bindex .Config \"name\"\x7d\x7d start\x7b\x7bend\x7d\x7d",
   "    ;;",
   "  service_systemd)",
   "    cp \"\x7b\x7bindex .Config \"src\"\x7d\x7d\" \"/etc/systemd/system/\x7b\x7bindex .Config \"name\"\x7d\x7d.service\"",
   "    systemctl daemon-reload",
   "    \x7b\x7bif or (not (index .Config \"start\")) (eq (index .Config \"start\") false)\x7d\x7dtrue\x7b\x7belse\x7d\x7dsystemctl enable --now \x7b\x7bindex .Config \"name\"\x7d\x7d\x7b\x7bend\x7d\x7d",
   "    ;;",
   "  auto_service)",
   "    if command -v systemctl >/dev/null 2>&1; then",
   "      cp \"\x7b\x7bindex .Config \"systemd_src\"\x7d\x7d\" \"/etc/systemd/system/\x7b\x7bindex .Config \"name\"\x7d\x7d.service\"",
   "      systemctl daemon-reload",
   "      \x7b\x7bif or (not (index .Config \"start\")) (eq (index .Config \"start\") false)\x7d\x7dtrue\x7b\x7belse\x7d\x7dsystemctl enable --now \x7b\x7bindex .Config \"name\"\x7d\x7d\x7b\x7bend\x7d\x7d",
   "    else",
   "      cp \"\x7b\x7bindex .Config \"sysv_src\"\x7d\x7d\" \"/etc/init.d/\x7b\x7bindex .Config \"name\"\x7d\x7d\"",
   "      chmod +x \"/etc/init.d/\x7b\x7bindex .Config \"name\"\x7d\x7d\"",
   "      if command -v chkconfig >/dev/null 2>&1; then",
   "        chkconfig --add \x7b\x7bindex .Config \"name\"\x7d\x7d",
   "        chkconfig \x7b\x7bindex .Config \"name\"\x7d\x7d on",
   "      else",
   "        echo \"chkconfig not found; ensure service enabled manually\" >&2",
   "      fi",
   "      \x7b\x7bif or (not (index .Config \"start\")) (eq (index .Config \"start\") false)\x7d\x7dtrue\x7b\x7belse\x7d\x7dservice \x7b\x7bindex .Config \"name\"\x7d\x7d start\x7b\x7bend\x7d\x7d",
   "    fi",
   "    ;;",
   "  *)",
   "    echo \"Unknown step type \x7b\x7b.Type\x7d\x7d\" >&2",
   "    exit 1",
   "    ;;",
   "esac",
   "step_idx=$((step_idx+1))",
   "done",
   "",
   "echo \"Completed $total steps\""]

/-- The constant `installTemplate`. -/
def installTemplate : String :=
  installTemplateLines.foldr (fun l acc => l ++ "\n" ++ acc) ""

/-- How a Go call ends: with a value, with a returned `error`, or with a panic. -/
inductive Outcome (α : Type) where
  | ok (a : α)
  | err (msg : String)
  | panic (msg : String)

/-- The states of the lexer: in plain text, after one opening brace, inside an action, after
one closing brace inside an action, inside a quoted string, after a backslash in a string. -/
inductive LexState where
  | text
  | brace
  | action
  | close
  | quote
  | escape

/-- The lexer of `text/template`, reduced to what the block structure needs: the bodies of
the actions between the delimiters, where a quoted string inside an action may hold any text. -/
def scanActions (st : LexState) (cur : List Char) : List Char → List (List Char)
  | [] => []
  | c :: rest =>
    match st with
    | LexState.text =>
      if c = '{' then scanActions LexState.brace [] rest else scanActions LexState.text [] rest
    | LexState.brace =>
      if c = '{' then scanActions LexState.action [] rest else scanActions LexState.text [] rest
    | LexState.action =>
      if c = '}' then scanActions LexState.close cur rest
      else if c = '"' then scanActions LexState.quote (c :: cur) rest
      else scanActions LexState.action (c :: cur) rest
    | LexState.close =>
      if c = '}' then cur.reverse :: scanActions LexState.text [] rest
      else if c = '"' then scanActions LexState.quote (c :: '}' :: cur) rest
      else scanActions LexState.action (c :: '}' :: cur) rest
    | LexState.quote =>
      if c = '\\' then scanActions LexState.escape (c :: cur) rest
      else if c = '"' then scanActions LexState.action (c :: cur) rest
      else scanActions LexState.quote (c :: cur) rest
    | LexState.escape => scanActions LexState.quote (c :: cur) rest

/-- The first word of an action, after the trim marker and leading blanks. -/
def actionKeyword (body : List Char) : String :=
  String.mk ((body.dropWhile (fun c => c = '-' ∨ c = ' ')).takeWhile Char.isAlpha)

/-- The block nesting of `text/template`: `if`, `range`, `with`, `define` and `block` open a
block, `end` closes the innermost one; an `end` without a block and an open block at the end of
the text are parse errors. The argument `depth` counts the open blocks. -/
def checkBlocks (depth : Nat) : List String → Except String Unit
  | [] => if depth = 0 then Except.ok () else Except.error "unexpected EOF"
  | kw :: rest =>
    if kw = "if" ∨ kw = "range" ∨ kw = "with" ∨ kw = "define" ∨ kw = "block" then
      checkBlocks (depth + 1) rest
    else if kw = "end" then
      (match depth with
       | 0 => Except.error "unexpected {{end}}"
       | d + 1 => checkBlocks d rest)
    else checkBlocks depth rest

/-- The call `template.New("install").Parse(text)`, reduced to the check of how the blocks
nest (the parser of the Go library rejects a text whose blocks do not close). -/
def templateParse (text : String) : Except String Unit :=
  checkBlocks 0 ((scanActions LexState.text [] text.data).map actionKeyword)

/-- The data handed to the template: the map literal `data` of `renderInstall`. -/
structure TemplateData where
  Recipe : Recipe
  GeneratedAt : String
  Preflight : List String

/-- What the Go runtime and library give to the renderer and the handlers: the Unicode case
tables, the clock, the execution of a parsed template, and the JSON encoder. -/
structure GoRuntime where
  unicodeLower : Char → Char
  now : String
  execute : String → TemplateData → Except String String
  marshalIndent : Recipe → Except String String

/-- The function `renderInstall`; `template.Must` panics when `Parse` returns an error. -/
def renderInstall (rt : GoRuntime) (r : Recipe) : Outcome String :=
  match templateParse installTemplate with
  | Except.error e => Outcome.panic e
  | Except.ok _ =>
    let data : TemplateData :=
      { Recipe := r, GeneratedAt := rt.now, Preflight := gatherPreflight r }
    match rt.execute installTemplate data with
    | Except.error e => Outcome.err e
    | Except.ok text => Outcome.ok text

/-- The text of `fmt.Sprintf("%v", xs)` for a slice of strings. -/
def fmtStrings (xs : List String) : String :=
  "[" ++ joinSpace xs ++ "]"

/-- The function `renderReadme`. Its format is a raw string literal, so each `\n` in it is a
backslash followed by the letter n. -/
def renderReadme (r : Recipe) : String :=
  "InstallForge bundle\\n===================\\n\\nProject: " ++ r.Project.Name
    ++ "\\nTargets: " ++ fmtStrings r.Project.Target
    ++ "\\n\\nUsage:\\n  chmod +x install.sh\\n  sudo ./install.sh\\n\\n"
    ++ "Logs are written under \x7b\x7bLOG_DIR\x7d\x7d (default /var/log/asg).\\n"

/-- The function `pretty`. -/
def pretty (rt : GoRuntime) (r : Recipe) : Except String String :=
  rt.marshalIndent r

/-- The struct `RenderResponse`. -/
structure RenderResponse where
  InstallSh : String
  Readme : String
  RecipePretty : String
  Issues : List Issue

/-- The function `Render`. -/
def Render (rt : GoRuntime) (r : Recipe) : Outcome RenderResponse :=
  let issues := Validate rt.unicodeLower r
  match renderInstall rt r with
  | Outcome.panic e => Outcome.panic e
  | Outcome.err e => Outcome.err e
  | Outcome.ok install =>
    let readme := renderReadme r
    match pretty rt r with
    | Except.error e => Outcome.err e
    | Except.ok recipePretty =>
      Outcome.ok { InstallSh := install, Readme := readme, RecipePretty := recipePretty,
                   Issues := issues }

/-! ## The export handler (`handlers.go`) -/

/-- The HTTP responses `exportBundle` writes. -/
inductive Response where
  | badRequest (error : String)
  | notFound (error : String)
  | refused (issues : List Issue)
  | internalError (error : String)
  | exported (path : String)

/-- The calls on the file system `exportBundle` makes, in the order it makes them. -/
inductive FsCall where
  | removeAll (path : String)
  | writeBundle (target : String)
  | writeFile (path content : String) (perm : Nat)
  deriving DecidableEq

/-- The collaborators of `exportBundle`: the decoding of the request body, the store, the
file system (each call answers with an error text or with none) and the path functions. -/
structure ExportEnv where
  bodyDecodes : Bool
  loadRecipe : Except String Recipe
  tempDir : String
  join : String → String → String
  removeAll : String → Option String
  writeBundle : Recipe → String → Option String
  writeFile : String → String → Nat → Option String

/-- The loop of `exportBundle` that looks for an issue of level `error`. -/
def hasErrorLoop (issues : List Issue) : Bool :=
  issues.foldl (fun hasError is_ => if is_.Level = "error" then true else hasError) false

/-- The handler returned by `exportBundle`: its response (or panic) and the calls it made on
the file system. -/
def exportBundle (rt : GoRuntime) (env : ExportEnv) : Outcome Response × List FsCall :=
  if !env.bodyDecodes then (Outcome.ok (Response.badRequest "invalid json"), [])
  else
    match env.loadRecipe with
    | Except.error _ => (Outcome.ok (Response.notFound "not found"), [])
    | Except.ok rec =>
      let issues := Validate rt.unicodeLower rec
      let hasError := hasErrorLoop issues
      if hasError then (Outcome.ok (Response.refused issues), [])
      else
        let target := env.join env.tempDir ("bundle_" ++ rec.Project.Name)
        let calls := [FsCall.removeAll target]
        match env.removeAll target with
        | some e => (Outcome.ok (Response.internalError e), calls)
        | none =>
          let calls := calls ++ [FsCall.writeBundle target]
          match env.writeBundle rec target with
          | some e => (Outcome.ok (Response.internalError e), calls)
          | none =>
            match Render rt rec with
            | Outcome.panic e => (Outcome.panic e, calls)
            | Outcome.err e => (Outcome.ok (Response.internalError e), calls)
            | Outcome.ok renderRes =>
              let installPath := env.join target "install.sh"
              let calls := calls ++ [FsCall.writeFile installPath renderRes.InstallSh 0o755]
              match env.writeFile installPath renderRes.InstallSh 0o755 with
              | some e => (Outcome.ok (Response.internalError e), calls)
              | none =>
                let readmePath := env.join target "README.txt"
                let calls := calls ++ [FsCall.writeFile readmePath renderRes.Readme 0o644]
                match env.writeFile readmePath renderRes.Readme 0o644 with
                | some e => (Outcome.ok (Response.internalError e), calls)
                | none => (Outcome.ok (Response.exported target), calls)

/-! ## The template actions of `installTemplate` (`text/template`)

The branches of the `case` statement in `installTemplate` are translated line by line: each
function below gives the lines that one branch of the template prints for a step, the step
being the value of `.` inside `range .Recipe.Steps`. The actions follow `text/template` as of
Go 1.18 (`or` evaluates its second argument only when the first one is false). -/

/-- The value of the pipeline `index .Config "k"`: `none` stands for the invalid value that
the template engine gets for a missing key and for a nil interface stored under the key. -/
def tmplIndex (cfg : Config) (key : String) : Option Value :=
  match mapGet cfg key with
  | some Value.null => none
  | some v => some v
  | none => none

/-- What an action prints for the value of its pipeline: `<no value>` for the invalid value,
and the text of `fmt.Fprint` otherwise. -/
def tmplPrint : Option Value → String
  | none => "<no value>"
  | some v => fmtV v

/-- The truth of a pipeline value in `if`, `not` and `or`: the invalid value, `false`, zero,
the empty string and the empty slice or map are false, every other value is true. -/
def tmplTruth : Option Value → Bool
  | none => false
  | some Value.null => false
  | some (Value.bool b) => b
  | some (Value.num f) => !(f.text == "0" || f.text == "-0")
  | some (Value.str s) => s != ""
  | some (Value.arr xs) => !xs.isEmpty
  | some (Value.obj kvs) => !kvs.isEmpty

/-- The call `eq x false`: a comparison of booleans; the invalid value is equal to nothing,
and a value of another basic kind, a slice or a map is an error of the execution. -/
def tmplEqFalse : Option Value → Except String Bool
  | none => Except.ok false
  | some Value.null => Except.ok false
  | some (Value.bool b) => Except.ok (!b)
  | some _ => Except.error "error calling eq: incompatible types for comparison"

/-- The condition `or (not (index .Config "start")) (eq (index .Config "start") false)` of the
service branches: when it is true the branch prints `true` in place of the start command. -/
def startSkipped (cfg : Config) : Except String Bool :=
  if !tmplTruth (tmplIndex cfg "start") then Except.ok true
  else tmplEqFalse (tmplIndex cfg "start")

/-- The values the action `range` visits, as the texts an action prints for them: the elements
of a slice in order, the values of a map in the order of its keys, nothing for the invalid
value; a value of any other kind is an error of the execution. -/
def tmplRangePrinted : Option Value → Except String (List String)
  | none => Except.ok []
  | some (Value.arr xs) =>
    Except.ok (xs.map (fun v => tmplPrint (match v with
      | Value.null => none
      | w => some w)))
  | some (Value.obj kvs) =>
    Except.ok ((sortFields (firstBindings (kvs.map (fun p => (p.1, tmplPrint (match p.2 with
      | Value.null => none
      | w => some w)))) [])).map Prod.snd)
  | some v => Except.error ("range can't iterate over " ++ fmtV v)

/-- The branch `mkdir)` of the template. -/
def mkdirBranch (s : Step) : List String :=
  ["    mkdir -p \"" ++ tmplPrint (tmplIndex s.Config "path") ++ "\""]

/-- The branch `copy)` of the template. -/
def copyBranch (s : Step) : List String :=
  ["    " ++ (if tmplTruth (tmplIndex s.Config "overwrite") then "cp -f" else "cp -n")
      ++ " \"" ++ tmplPrint (tmplIndex s.Config "src") ++ "\" \""
      ++ tmplPrint (tmplIndex s.Config "dest") ++ "\"",
   "    " ++ (if tmplTruth (tmplIndex s.Config "mode") then
      "chmod " ++ tmplPrint (tmplIndex s.Config "mode") ++ " \""
        ++ tmplPrint (tmplIndex s.Config "dest") ++ "\""
      else "")]

/-- The branch `extract_tar_gz)` of the template. -/
def extractTarGzBranch (s : Step) : List String :=
  ["    if [ -n \"" ++ tmplPrint (tmplIndex s.Config "creates") ++ "\" ] && [ -e \""
      ++ tmplPrint (tmplIndex s.Config "creates") ++ "\" ]; then",
   "      echo \"skip extract_tar_gz because creates exists\"",
   "    else",
   "      mkdir -p \"" ++ tmplPrint (tmplIndex s.Config "dest") ++ "\"",
   "      tar -xzf \"" ++ tmplPrint (tmplIndex s.Config "src") ++ "\" -C \""
      ++ tmplPrint (tmplIndex s.Config "dest") ++ "\"",
   "    fi"]

/-- The branch `extract_zip)` of the template. -/
def extractZipBranch (s : Step) : List String :=
  ["    if [ -n \"" ++ tmplPrint (tmplIndex s.Config "creates") ++ "\" ] && [ -e \""
      ++ tmplPrint (tmplIndex s.Config "creates") ++ "\" ]; then",
   "      echo \"skip extract_zip because creates exists\"",
   "    else",
   "      mkdir -p \"" ++ tmplPrint (tmplIndex s.Config "dest") ++ "\"",
   "      unzip -o \"" ++ tmplPrint (tmplIndex s.Config "src") ++ "\" -d \""
      ++ tmplPrint (tmplIndex s.Config "dest") ++ "\"",
   "    fi"]

/-- The text `{{if index .Config "nodeps"}}--nodeps{{end}}` of the branch `rpm_install)`. -/
def nodepsFlag (s : Step) : String :=
  if tmplTruth (tmplIndex s.Config "nodeps") then "--nodeps" else ""

/-- The branch `rpm_install)` of the template. -/
def rpmInstallBranch (s : Step) : Except String (List String) :=
  match tmplRangePrinted (tmplIndex s.Config "rpms") with
  | Except.error e => Except.error e
  | Except.ok rpms =>
    Except.ok
      ["    for rpm in " ++ String.join (rpms.map (fun v => " \"" ++ v ++ "\"")) ++ "; do",
       "      if [ \"" ++ tmplPrint (tmplIndex s.Config "mode") ++ "\" = \"upgrade\" ]; then",
       "        rpm -Uvh $rpm " ++ nodepsFlag s,
       "      else",
       "        rpm -ivh $rpm " ++ nodepsFlag s,
       "      fi",
       "    done"]

/-- The branch `run_cmd)` of the template. -/
def runCmdBranch (s : Step) : List String :=
  ["    " ++ (if tmplTruth (tmplIndex s.Config "cwd") then
      "(cd \"" ++ tmplPrint (tmplIndex s.Config "cwd") ++ "\" && "
        ++ tmplPrint (tmplIndex s.Config "cmd") ++ ")"
      else tmplPrint (tmplIndex s.Config "cmd"))]

/-- The branch `service_sysv)` of the template. -/
def serviceSysvBranch (s : Step) : Except String (List String) :=
  match startSkipped s.Config with
  | Except.error e => Except.error e
  | Except.ok skip =>
    Except.ok
      ["    cp \"" ++ tmplPrint (tmplIndex s.Config "src") ++ "\" \"/etc/init.d/"
          ++ tmplPrint (tmplIndex s.Config "name") ++ "\"",
       "    chmod +x \"/etc/init.d/" ++ tmplPrint (tmplIndex s.Config "name") ++ "\"",
       "    if command -v chkconfig >/dev/null 2>&1; then",
       "      chkconfig --add " ++ tmplPrint (tmplIndex s.Config "name"),
       "      chkconfig " ++ tmplPrint (tmplIndex s.Config "name") ++ " on",
       "    else",
       "      echo \"chkconfig not found; ensure service enabled manually\" >&2",
       "    fi",
       "    " ++ (if skip then "true"
          else "service " ++ tmplPrint (tmplIndex s.Config "name") ++ " start")]

/-- The branch `service_systemd)` of the template. -/
def serviceSystemdBranch (s : Step) : Except String (List String) :=
  match startSkipped s.Config with
  | Except.error e => Except.error e
  | Except.ok skip =>
    Except.ok
      ["    cp \"" ++ tmplPrint (tmplIndex s.Config "src") ++ "\" \"/etc/systemd/system/"
          ++ tmplPrint (tmplIndex s.Config "name") ++ ".service\"",
       "    systemctl daemon-reload",
       "    " ++ (if skip then "true"
          else "systemctl enable --now " ++ tmplPrint (tmplIndex s.Config "name"))]

/-- The branch `auto_service)` of the template. -/
def autoServiceBranch (s : Step) : Except String (List String) :=
  match startSkipped s.Config with
  | Except.error e => Except.error e
  | Except.ok skip =>
    Except.ok
      ["    if command -v systemctl >/dev/null 2>&1; then",
       "      cp \"" ++ tmplPrint (tmplIndex s.Config "systemd_src")
          ++ "\" \"/etc/systemd/system/" ++ tmplPrint (tmplIndex s.Config "name")
          ++ ".service\"",
       "      systemctl daemon-reload",
       "      " ++ (if skip then "true"
          else "systemctl enable --now " ++ tmplPrint (tmplIndex s.Config "name")),
       "    else",
       "      cp \"" ++ tmplPrint (tmplIndex s.Config "sysv_src") ++ "\" \"/etc/init.d/"
          ++ tmplPrint (tmplIndex s.Config "name") ++ "\"",
       "      chmod +x \"/etc/init.d/" ++ tmplPrint (tmplIndex s.Config "name") ++ "\"",
       "      if command -v chkconfig >/dev/null 2>&1; then",
       "        chkconfig --add " ++ tmplPrint (tmplIndex s.Config "name"),
       "        chkconfig " ++ tmplPrint (tmplIndex s.Config "name") ++ " on",
       "      else",
       "        echo \"chkconfig not found; ensure service enabled manually\" >&2",
       "      fi",
       "      " ++ (if skip then "true"
          else "service " ++ tmplPrint (tmplIndex s.Config "name") ++ " start"),
       "    fi"]

/-- The line number `n` (from 0) of a branch, when the branch is printed without error. -/
def branchLine (b : Except String (List String)) (n : Nat) : Option String :=
  match b with
  | Except.ok ls => ls.get? n
  | Except.error _ => none

/-- The number of lines of a branch, when the branch is printed without error. -/
def branchLength (b : Except String (List String)) : Option Nat :=
  match b with
  | Except.ok ls => some ls.length
  | Except.error _ => none

/-- Whether the text `needle` occurs in `line`. -/
def mentions (needle line : String) : Bool :=
  decide (needle.data <:+: line.data)

/-! ## The contract of the validator, as the specification words it -/

/-- The 14 known step types. -/
def knownTypes : List String :=
  ["mkdir", "copy", "chmod", "chown", "extract_tar_gz", "extract_zip", "rpm_install",
   "append_lines", "delete_lines", "replace", "run_cmd", "service_sysv", "service_systemd",
   "auto_service"]

/-- The column "required keys" of the specification's table of step types. -/
def specRequiredKeys (t : String) : List String :=
  if t = "mkdir" then ["path"]
  else if t = "copy" then ["src", "dest"]
  else if t = "chmod" then ["path", "mode"]
  else if t = "chown" then ["path", "owner"]
  else if t = "extract_tar_gz" ∨ t = "extract_zip" then ["src", "dest"]
  else if t = "rpm_install" then ["rpms", "mode"]
  else if t = "append_lines" then ["file", "lines"]
  else if t = "delete_lines" then ["file", "match", "mode"]
  else if t = "replace" then ["file", "pattern", "replacement", "mode"]
  else if t = "run_cmd" then ["cmd"]
  else if t = "service_sysv" ∨ t = "service_systemd" then ["src", "name"]
  else if t = "auto_service" then ["name", "sysv_src", "systemd_src"]
  else []

/-- The specification's notion of an empty key: absent, or rendering to the empty string. -/
def keyEmpty (cfg : Config) (k : String) : Prop :=
  mapGet cfg k = none ∨ ∃ v, mapGet cfg k = some v ∧ fmtV v = ""

/-- A recipe that differs from `r` only in its steps. -/
def withSteps (r : Recipe) (steps : List Step) : Recipe :=
  { r with Steps := steps }

/-- The specification's mapping from step types to the commands the preflight block checks. -/
def specCommands (t : String) : List String :=
  if t = "extract_zip" then ["unzip"]
  else if t = "extract_tar_gz" then ["tar"]
  else if t = "rpm_install" then ["rpm"]
  else if t = "append_lines" ∨ t = "delete_lines" ∨ t = "replace" then ["sed", "grep"]
  else if t = "service_systemd" ∨ t = "auto_service" then ["systemctl"]
  else if t = "service_sysv" then ["chkconfig"]
  else []

/-- The config without any binding of `key`. -/
def eraseKey : Config → String → Config
  | [], _ => []
  | (k, v) :: rest, key => if k = key then eraseKey rest key else (k, v) :: eraseKey rest key

/-- The step `s` with the key `key` removed from its config. -/
def withoutKey (s : Step) (key : String) : Step :=
  { s with Config := eraseKey s.Config key }

/-- The issues of level `error` among `issues`. -/
def errorsOf (issues : List Issue) : List Issue :=
  issues.filter (fun i => decide (i.Level = "error"))

/-- The issues among `issues` that carry the message `msg`. -/
def withMessage (issues : List Issue) (msg : String) : List Issue :=
  issues.filter (fun i => decide (i.Message = msg))

/-! ## Sample inputs -/

/-- A runtime whose template execution and JSON encoder answer with fixed texts. -/
def sampleRuntime : GoRuntime :=
  { unicodeLower := id
    now := "2024-05-01T10:00:00Z"
    execute := fun _ _ => Except.ok "echo"
    marshalIndent := fun _ => Except.ok "\x7b\x7d" }

/-- An environment in which the body decodes, the store holds `rec` and no file call fails. -/
def sampleEnv (rec : Recipe) : ExportEnv :=
  { bodyDecodes := true
    loadRecipe := Except.ok rec
    tempDir := "/tmp"
    join := fun a b => a ++ "/" ++ b
    removeAll := fun _ => none
    writeBundle := fun _ _ => none
    writeFile := fun _ _ _ => none }

/-- A recipe with the given steps and the starter metadata of a project named `demo`. -/
def sampleRecipe (steps : List Step) : Recipe :=
  { SchemaVersion := "1.0"
    Project := { ID := "p1", Name := "demo", Description := "",
                 Target := ["oracle_linux_6_9", "kylinsec_3_4"] }
    Vars := [("INSTALL_ROOT", "/opt/demo"), ("LOG_DIR", "/var/log/asg")]
    Steps := steps
    UpdatedAt := 0 }

/-- A `chmod` step whose `mode` is the boolean `false` and whose `path` is missing. -/
def chmodFalseMode : Step :=
  { ID := "s1", Name := "perm", Type_ := "chmod", Config := [("mode", Value.bool false)] }

/-- A `mkdir` step with its `path`. -/
def mkdirDemo : Step :=
  { ID := "s1", Name := "root dir", Type_ := "mkdir",
    Config := [("path", Value.str "/opt/demo")] }

/-- A `delete_lines` step with `backup` switched off and a mode that is not allowed. -/
def deleteNoBackup : Step :=
  { ID := "s4", Name := "trim", Type_ := "delete_lines",
    Config := [("file", Value.str "/etc/hosts"), ("match", Value.str "old"),
               ("mode", Value.str "glob"), ("backup", Value.bool false)] }

/-- An `append_lines` step with `backup` switched on. -/
def appendWithBackup : Step :=
  { ID := "s5", Name := "add", Type_ := "append_lines",
    Config := [("file", Value.str "/etc/hosts"), ("lines", Value.arr [Value.str "x"]),
               ("backup", Value.bool true)] }

/-- An `rpm_install` step with one package and the given `mode`. -/
def rpmWithMode (m : String) : Step :=
  { ID := "s2", Name := "pkgs", Type_ := "rpm_install",
    Config := [("rpms", Value.arr [Value.str "app.rpm"]), ("mode", Value.str m)] }

/-- A step whose type is not one of the known ones. -/
def rebootStep : Step :=
  { ID := "s9", Name := "restart", Type_ := "reboot", Config := [] }

/-- An `extract_tar_gz` step with `creates` set. -/
def extractDemo : Step :=
  { ID := "s3", Name := "unpack", Type_ := "extract_tar_gz",
    Config := [("src", Value.str "app.tar.gz"), ("dest", Value.str "/opt/demo"),
               ("creates", Value.str "/opt/demo/bin")] }

/-- A `service_sysv` step without a `start` key. -/
def sysvNoStart : Step :=
  { ID := "s6", Name := "svc", Type_ := "service_sysv",
    Config := [("src", Value.str "app.init"), ("name", Value.str "app")] }

/-- An `auto_service` step with `start` set to `true`. -/
def autoStart : Step :=
  { ID := "s7", Name := "svc", Type_ := "auto_service",
    Config := [("name", Value.str "app"), ("sysv_src", Value.str "app.init"),
               ("systemd_src", Value.str "app.service"), ("start", Value.bool true)] }

/-- A `copy` step whose `overwrite` is the string `no` and whose `mode` is not set. -/
def copyOverwriteNo : Step :=
  { ID := "s8", Name := "conf", Type_ := "copy",
    Config := [("src", Value.str "app.conf"), ("dest", Value.str "/etc/app.conf"),
               ("overwrite", Value.str "no")] }

/-- A `copy` step with `overwrite` set to `true` and a `mode`. -/
def copyForce : Step :=
  { ID := "s8", Name := "conf", Type_ := "copy",
    Config := [("src", Value.str "app.conf"), ("dest", Value.str "/etc/app.conf"),
               ("overwrite", Value.bool true), ("mode", Value.str "0644")] }

/-- A `run_cmd` step without a `cwd` key. -/
def runCmdNoCwd : Step :=
  { ID := "s10", Name := "build", Type_ := "run_cmd",
    Config := [("cmd", Value.str "make install")] }

/-- A recipe with the name and targets of `sampleRecipe`, and all else different. -/
def otherRecipe : Recipe :=
  { SchemaVersion := "2.0"
    Project := { ID := "p2", Name := "demo", Description := "second",
                 Target := ["oracle_linux_6_9", "kylinsec_3_4"] }
    Vars := [("LOG_DIR", "/tmp/logs")]
    Steps := [{ ID := "s1", Name := "root dir", Type_ := "mkdir",
                Config := [("path", Value.str "/opt/demo")] }]
    UpdatedAt := 7 }

/-- An `extract_zip` step without a `creates` key. -/
def extractNoCreates : Step :=
  { ID := "s3", Name := "unpack", Type_ := "extract_zip",
    Config := [("src", Value.str "app.zip"), ("dest", Value.str "/opt/demo")] }

/-- An `extract_tar_gz` step whose `creates` is the empty string. -/
def extractEmptyCreates : Step :=
  { ID := "s3", Name := "unpack", Type_ := "extract_tar_gz",
    Config := [("src", Value.str "app.tar.gz"), ("dest", Value.str "/opt/demo"),
               ("creates", Value.str "")] }

/-- The number 1 as a JSON number. -/
def goOne : GoFloat :=
  { text := "1", wf := by decide }

/-- An `append_lines` step whose `backup` is the string `true`. -/
def appendBackupString : Step :=
  { ID := "s5", Name := "add", Type_ := "append_lines",
    Config := [("file", Value.str "/etc/hosts"), ("lines", Value.arr [Value.str "x"]),
               ("backup", Value.str "true")] }

/-- A `replace` step whose `backup` is the number 1. -/
def replaceBackupNumber : Step :=
  { ID := "s1", Name := "edit", Type_ := "replace",
    Config := [("file", Value.str "/etc/app.conf"), ("pattern", Value.str "a"),
               ("replacement", Value.str "b"), ("mode", Value.str "fixed"),
               ("backup", Value.num goOne)] }

/-- An `rpm_install` step whose `rpms` is the empty list. -/
def rpmEmptyList : Step :=
  { ID := "s2", Name := "pkgs", Type_ := "rpm_install",
    Config := [("rpms", Value.arr []), ("mode", Value.str "install")] }

/-- A `mkdir` step whose `path` is the JSON null. -/
def mkdirNullPath : Step :=
  { ID := "s1", Name := "root dir", Type_ := "mkdir", Config := [("path", Value.null)] }

/-- A `replace` step with `file`, `pattern` and `replacement` set and no `mode`. -/
def replaceNoMode : Step :=
  { ID := "s1", Name := "edit", Type_ := "replace",
    Config := [("file", Value.str "/etc/app.conf"), ("pattern", Value.str "a"),
               ("replacement", Value.str "b")] }

/-! ## Auxiliary descriptions of the issues of one step (used in proofs only) -/

/-- The issues of a run of `require` calls, from the empty slice. -/
def requireAll (step : Step) : List String → List Issue
  | [] => []
  | k :: ks => require step [] k ++ requireAll step ks

/-- The issue of the mode rule, if any. -/
def modeIssues (tbl : Char → Char) (step : Step) (key msg : String) : List Issue :=
  if !contains (requiredModesAt key) (toLower tbl (fmtV (mapIndex step.Config "mode"))) then
    [{ Level := "error", StepID := step.ID, Message := msg }]
  else []

/-- The issue of the backup rule, if any. -/
def backupIssues (step : Step) : List Issue :=
  match mapGet step.Config "backup" with
  | some backup =>
    if !assertBool backup then
      [{ Level := "warn", StepID := step.ID, Message := "backup is disabled; risk of data loss" }]
    else []
  | none => []

/-- The warning for an unset optional key, if any. -/
def absentIssues (step : Step) (key msg : String) : List Issue :=
  match mapGet step.Config key with
  | none => [{ Level := "warn", StepID := step.ID, Message := msg }]
  | some _ => []

/-- The issues a known step type adds after its `require` calls. -/
def extraIssues (tbl : Char → Char) (step : Step) : List Issue :=
  if step.Type_ = "extract_tar_gz" ∨ step.Type_ = "extract_zip" then
    absentIssues step "creates" "creates is not set; idempotency may be improved"
  else if step.Type_ = "rpm_install" then
    modeIssues tbl step "rpm_install" "mode must be upgrade or install"
  else if step.Type_ = "append_lines" then backupIssues step
  else if step.Type_ = "delete_lines" then
    modeIssues tbl step "delete_lines" "mode must be fixed or regex" ++ backupIssues step
  else if step.Type_ = "replace" then
    modeIssues tbl step "replace" "mode must be fixed or regex" ++ backupIssues step
  else if step.Type_ = "run_cmd" then
    absentIssues step "cwd" "cwd is not set; command will run from script directory"
  else []

/-- The messages of the issues that are not produced by `require`. -/
def extraMessages : List String :=
  ["creates is not set; idempotency may be improved",
   "mode must be upgrade or install",
   "mode must be fixed or regex",
   "backup is disabled; risk of data loss",
   "cwd is not set; command will run from script directory"]

/-! ## Lemmas on the validator -/

theorem require_append (step : Step) (a b : List Issue) (k : String) :
    require step (a ++ b) k = a ++ require step b k := by
  unfold require add
  split
  · simp
  · split <;> simp

theorem require_eq (step : Step) (a : List Issue) (k : String) :
    require step a k = a ++ require step [] k := by
  have h := require_append step a [] k
  simpa using h

theorem require_require (step : Step) (a : List Issue) (k1 k2 : String) :
    require step (require step a k1) k2 = require step a k1 ++ require step [] k2 :=
  require_eq step _ k2

theorem validateStep_known (tbl : Char → Char) (issues : List Issue) (step : Step)
    (h : step.Type_ ∈ knownTypes) :
    validateStep tbl issues step
      = issues ++ (requireAll step (specRequiredKeys step.Type_) ++ extraIssues tbl step) := by
  simp only [knownTypes, List.mem_cons, List.mem_singleton, List.not_mem_nil, or_false] at h
  rcases h with h | h | h | h | h | h | h | h | h | h | h | h | h | h <;>
    simp only [validateStep, h, specRequiredKeys, extraIssues, requireAll, modeIssues,
      backupIssues, absentIssues, add] <;>
    simp [require_eq step issues, require_append, require_require] <;>
    (try split) <;> (try split) <;> (try split) <;>
    simp [require_eq step issues, require_append, require_require]

theorem validateStep_unknown (tbl : Char → Char) (issues : List Issue) (step : Step)
    (h : step.Type_ ∉ knownTypes) :
    validateStep tbl issues step
      = issues ++ [{ Level := "warn", StepID := step.ID,
                     Message := "unknown step type " ++ step.Type_ }] := by
  simp only [knownTypes, List.mem_cons, List.mem_singleton, List.not_mem_nil, or_false,
    not_or] at h
  obtain ⟨h1, h2, h3, h4, h5, h6, h7, h8, h9, h10, h11, h12, h13, h14⟩ := h
  simp [validateStep, add, h1, h2, h3, h4, h5, h6, h7, h8, h9, h10, h11, h12, h13, h14]

theorem validateStep_eq (tbl : Char → Char) (issues : List Issue) (step : Step) :
    validateStep tbl issues step = issues ++ validateStep tbl [] step := by
  by_cases h : step.Type_ ∈ knownTypes
  · rw [validateStep_known tbl issues step h, validateStep_known tbl [] step h]
    simp
  · rw [validateStep_unknown tbl issues step h, validateStep_unknown tbl [] step h]
    simp

theorem foldl_validateStep (tbl : Char → Char) (steps : List Step) (acc : List Issue) :
    steps.foldl (validateStep tbl) acc = acc ++ steps.foldl (validateStep tbl) [] := by
  induction steps generalizing acc with
  | nil => simp
  | cons s rest ih =>
    simp only [List.foldl_cons]
    rw [ih (validateStep tbl acc s), ih (validateStep tbl [] s), validateStep_eq tbl acc s]
    simp

theorem Validate_single (tbl : Char → Char) (r : Recipe) (s : Step) :
    Validate tbl (withSteps r [s]) = validateStep tbl [] s := by
  simp [Validate, withSteps]

theorem append_right_cancel_string (a b x : String) (h : a ++ x = b ++ x) : a = b := by
  have h2 := congrArg String.data h
  simp only [String.data_append] at h2
  exact String.ext (List.append_cancel_right h2)

theorem ne_append_of_not_suffix (m k x : String) (h : ¬ (x.data <:+ m.data)) :
    m ≠ k ++ x := by
  intro e
  apply h
  rw [e, String.data_append]
  exact List.suffix_append _ _

theorem mem_require (step : Step) (k : String) (i : Issue) :
    i ∈ require step [] k ↔
      i = { Level := "error", StepID := step.ID, Message := k ++ " is required" }
        ∧ keyEmpty step.Config k := by
  unfold require add keyEmpty
  split
  · simp_all
  · split <;> simp_all

theorem mem_requireAll (step : Step) (ks : List String) (i : Issue) :
    i ∈ requireAll step ks ↔
      ∃ k ∈ ks, i = { Level := "error", StepID := step.ID, Message := k ++ " is required" }
        ∧ keyEmpty step.Config k := by
  induction ks with
  | nil => simp [requireAll]
  | cons k rest ih => simp [requireAll, mem_require, ih]

theorem mem_modeIssues (tbl : Char → Char) (step : Step) (key msg : String) (i : Issue)
    (h : i ∈ modeIssues tbl step key msg) :
    i = { Level := "error", StepID := step.ID, Message := msg } := by
  unfold modeIssues at h
  split at h <;> simp_all

theorem mem_backupIssues (step : Step) (i : Issue) (h : i ∈ backupIssues step) :
    i = { Level := "warn", StepID := step.ID,
          Message := "backup is disabled; risk of data loss" } := by
  unfold backupIssues at h
  split at h
  · split at h <;> simp_all
  · simp at h

theorem mem_absentIssues (step : Step) (key msg : String) (i : Issue)
    (h : i ∈ absentIssues step key msg) :
    i = { Level := "warn", StepID := step.ID, Message := msg } := by
  unfold absentIssues at h
  split at h <;> simp_all

theorem mem_extraIssues (tbl : Char → Char) (step : Step) (i : Issue)
    (h : i ∈ extraIssues tbl step) : i.StepID = step.ID ∧ i.Message ∈ extraMessages := by
  unfold extraIssues at h
  split_ifs at h
  · rw [mem_absentIssues _ _ _ _ h]; simp [extraMessages]
  · rw [mem_modeIssues _ _ _ _ _ h]; simp [extraMessages]
  · rw [mem_backupIssues _ _ h]; simp [extraMessages]
  · rcases List.mem_append.1 h with h | h
    · rw [mem_modeIssues _ _ _ _ _ h]; simp [extraMessages]
    · rw [mem_backupIssues _ _ h]; simp [extraMessages]
  · rcases List.mem_append.1 h with h | h
    · rw [mem_modeIssues _ _ _ _ _ h]; simp [extraMessages]
    · rw [mem_backupIssues _ _ h]; simp [extraMessages]
  · rw [mem_absentIssues _ _ _ _ h]; simp [extraMessages]
  · simp at h

theorem extraMessages_not_required (m k : String) (h : m ∈ extraMessages) :
    m ≠ k ++ " is required" := by
  simp only [extraMessages, List.mem_cons, List.mem_singleton, List.not_mem_nil, or_false] at h
  rcases h with h | h | h | h | h <;> subst h <;>
    exact ne_append_of_not_suffix _ _ _ (by decide)

theorem required_issue_iff (tbl : Char → Char) (s : Step) (k : String) (i : Issue)
    (h : s.Type_ ∈ knownTypes) :
    (i ∈ validateStep tbl [] s ∧ i.Message = k ++ " is required") ↔
      (i = { Level := "error", StepID := s.ID, Message := k ++ " is required" }
        ∧ k ∈ specRequiredKeys s.Type_ ∧ keyEmpty s.Config k) := by
  rw [validateStep_known tbl [] s h, List.nil_append, List.mem_append, mem_requireAll]
  constructor
  · rintro ⟨hm | hm, hmsg⟩
    · obtain ⟨k2, hk2, hi, he⟩ := hm
      have hk : k2 = k := by
        rw [hi] at hmsg
        exact append_right_cancel_string _ _ _ hmsg
      subst hk
      exact ⟨hi, hk2, he⟩
    · exact absurd hmsg (extraMessages_not_required _ _ (mem_extraIssues tbl s i hm).2)
  · rintro ⟨hi, hk, he⟩
    exact ⟨Or.inl ⟨k, hk, hi, he⟩, by rw [hi]⟩

theorem filter_requireAll (step : Step) (ks : List String) (msg : String)
    (h : msg ∈ extraMessages) :
    (requireAll step ks).filter (fun i => decide (i.Message = msg)) = [] := by
  rw [List.filter_eq_nil_iff]
  intro i hi
  obtain ⟨k, _, e, _⟩ := (mem_requireAll step ks i).1 hi
  have := extraMessages_not_required msg k h
  simp only [decide_eq_true_eq]
  rw [e]
  exact fun h2 => this h2.symm

theorem requiredModesAt_rpm : requiredModesAt "rpm_install" = ["upgrade", "install"] := by
  decide

theorem requiredModesAt_delete : requiredModesAt "delete_lines" = ["fixed", "regex"] := by
  decide

theorem requiredModesAt_replace : requiredModesAt "replace" = ["fixed", "regex"] := by
  decide

theorem contains_pair (a b v : String) : contains [a, b] v = true ↔ (v = a ∨ v = b) := by
  simp only [contains]
  split_ifs with h1 h2
  · simp [h1]
  · simp [h2]
  · simp [Ne.symm h1, Ne.symm h2]

theorem validateStep_rpm (tbl : Char → Char) (s : Step) (h : s.Type_ = "rpm_install") :
    validateStep tbl [] s
      = requireAll s ["rpms", "mode"]
        ++ modeIssues tbl s "rpm_install" "mode must be upgrade or install" := by
  rw [validateStep_known tbl [] s (by rw [h]; decide)]
  simp [h, specRequiredKeys, extraIssues]

set_option maxRecDepth 1000000 in
theorem templateParse_installTemplate :
    templateParse installTemplate = Except.error "unexpected EOF" := by
  rfl

theorem renderInstall_panics (rt : GoRuntime) (r : Recipe) :
    renderInstall rt r = Outcome.panic "unexpected EOF" := by
  unfold renderInstall
  rw [templateParse_installTemplate]

theorem Render_panics (rt : GoRuntime) (r : Recipe) :
    Render rt r = Outcome.panic "unexpected EOF" := by
  unfold Render
  rw [renderInstall_panics]

theorem hasErrorLoop_foldl (l : List Issue) (b : Bool) :
    l.foldl (fun hasError is_ => if is_.Level = "error" then true else hasError) b = true
      ↔ (b = true ∨ ∃ i ∈ l, i.Level = "error") := by
  induction l generalizing b with
  | nil => simp
  | cons x rest ih =>
    rw [List.foldl_cons, ih]
    by_cases hx : x.Level = "error"
    · simp [hx]
    · simp [hx]

theorem hasErrorLoop_iff (l : List Issue) :
    hasErrorLoop l = true ↔ ∃ i ∈ l, i.Level = "error" := by
  unfold hasErrorLoop
  rw [hasErrorLoop_foldl]
  simp

theorem exportBundle_refused (rt : GoRuntime) (env : ExportEnv) (rec : Recipe)
    (hb : env.bodyDecodes = true) (hl : env.loadRecipe = Except.ok rec)
    (he : hasErrorLoop (Validate rt.unicodeLower rec) = true) :
    exportBundle rt env = (Outcome.ok (Response.refused (Validate rt.unicodeLower rec)), []) := by
  simp [exportBundle, hb, hl, he]

theorem exportBundle_passed (rt : GoRuntime) (env : ExportEnv) (rec : Recipe)
    (hb : env.bodyDecodes = true) (hl : env.loadRecipe = Except.ok rec)
    (he : hasErrorLoop (Validate rt.unicodeLower rec) = false) :
    (∀ is_, (exportBundle rt env).1 ≠ Outcome.ok (Response.refused is_))
    ∧ (exportBundle rt env).2.head?
        = some (FsCall.removeAll (env.join env.tempDir ("bundle_" ++ rec.Project.Name))) := by
  simp only [exportBundle, hb, hl, he, Render_panics]
  constructor
  · intro is_
    simp only [Bool.not_true, Bool.false_eq_true, ↓reduceIte]
    split
    · simp
    · split <;> simp
  · simp only [Bool.not_true, Bool.false_eq_true, ↓reduceIte]
    split
    · simp
    · split <;> simp

theorem mem_keys_mapSet (m : List (String × Bool)) (k c : String) (v : Bool) :
    c ∈ (mapSet m k v).map Prod.fst ↔ (c = k ∨ c ∈ m.map Prod.fst) := by
  induction m with
  | nil => simp [mapSet]
  | cons p rest ih =>
    obtain ⟨k2, v2⟩ := p
    unfold mapSet
    split_ifs with h
    · subst h
      simp
    · simp only [List.map_cons, List.mem_cons, ih]
      tauto

theorem nodup_keys_mapSet (m : List (String × Bool)) (k : String) (v : Bool)
    (h : (m.map Prod.fst).Nodup) : ((mapSet m k v).map Prod.fst).Nodup := by
  induction m with
  | nil => simp [mapSet]
  | cons p rest ih =>
    obtain ⟨k2, v2⟩ := p
    unfold mapSet
    simp only [List.map_cons, List.nodup_cons] at h
    split_ifs with hk
    · subst hk
      simpa using h
    · simp only [List.map_cons, List.nodup_cons, mem_keys_mapSet]
      refine ⟨?_, ih h.2⟩
      rintro (e | e)
      · exact hk e
      · exact h.1 e

theorem mem_keys_preflightStep (m : List (String × Bool)) (s : Step) (c : String) :
    c ∈ (preflightStep m s).map Prod.fst
      ↔ (c ∈ m.map Prod.fst ∨ c ∈ specCommands s.Type_) := by
  unfold preflightStep specCommands
  split_ifs <;> simp only [mem_keys_mapSet, List.mem_cons, List.mem_singleton,
    List.not_mem_nil, or_false] <;> tauto

theorem nodup_keys_preflightStep (m : List (String × Bool)) (s : Step)
    (h : (m.map Prod.fst).Nodup) : ((preflightStep m s).map Prod.fst).Nodup := by
  unfold preflightStep
  split_ifs <;> first
    | exact h
    | exact nodup_keys_mapSet _ _ _ (nodup_keys_mapSet _ _ _ h)
    | exact nodup_keys_mapSet _ _ _ h

theorem mem_keys_foldl_preflight (steps : List Step) (m : List (String × Bool)) (c : String) :
    c ∈ (steps.foldl preflightStep m).map Prod.fst
      ↔ (c ∈ m.map Prod.fst ∨ ∃ s ∈ steps, c ∈ specCommands s.Type_) := by
  induction steps generalizing m with
  | nil => simp
  | cons s rest ih =>
    rw [List.foldl_cons, ih, mem_keys_preflightStep]
    simp only [List.mem_cons, exists_eq_or_imp]
    tauto

theorem nodup_keys_foldl_preflight (steps : List Step) (m : List (String × Bool))
    (h : (m.map Prod.fst).Nodup) : ((steps.foldl preflightStep m).map Prod.fst).Nodup := by
  induction steps generalizing m with
  | nil => simpa using h
  | cons s rest ih =>
    rw [List.foldl_cons]
    exact ih _ (nodup_keys_preflightStep m s h)

theorem toLower_nil (tbl : Char → Char) : toLower tbl "<nil>" = "<nil>" := by
  rfl

theorem require_absent (s : Step) (k : String) (h : mapGet s.Config k = none) :
    require s [] k = [{ Level := "error", StepID := s.ID, Message := k ++ " is required" }] := by
  simp [require, h, add]

theorem require_present (s : Step) (k : String) (h : ¬ keyEmpty s.Config k) :
    require s [] k = [] := by
  unfold keyEmpty at h
  unfold require
  split
  · rename_i hn
    exact absurd (Or.inl hn) h
  · rename_i v hv
    split
    · rename_i he
      exact absurd (Or.inr ⟨v, hv, he⟩) h
    · rfl

theorem modeIssues_absent (tbl : Char → Char) (s : Step) (msg : String)
    (h : mapGet s.Config "mode" = none) :
    modeIssues tbl s "replace" msg = [{ Level := "error", StepID := s.ID, Message := msg }]
    ∧ modeIssues tbl s "delete_lines" msg
        = [{ Level := "error", StepID := s.ID, Message := msg }] := by
  have hfmt : fmtV (mapIndex s.Config "mode") = "<nil>" := by
    simp [mapIndex, h, fmtV]
  unfold modeIssues
  rw [hfmt, toLower_nil, requiredModesAt_replace, requiredModesAt_delete]
  exact ⟨rfl, rfl⟩

theorem validateStep_replace (tbl : Char → Char) (s : Step) (h : s.Type_ = "replace") :
    validateStep tbl [] s
      = requireAll s ["file", "pattern", "replacement", "mode"]
        ++ (modeIssues tbl s "replace" "mode must be fixed or regex" ++ backupIssues s) := by
  rw [validateStep_known tbl [] s (by rw [h]; decide)]
  simp [h, specRequiredKeys, extraIssues]

theorem validateStep_delete (tbl : Char → Char) (s : Step) (h : s.Type_ = "delete_lines") :
    validateStep tbl [] s
      = requireAll s ["file", "match", "mode"]
        ++ (modeIssues tbl s "delete_lines" "mode must be fixed or regex"
            ++ backupIssues s) := by
  rw [validateStep_known tbl [] s (by rw [h]; decide)]
  simp [h, specRequiredKeys, extraIssues]

theorem validateStep_appendLines (tbl : Char → Char) (s : Step)
    (h : s.Type_ = "append_lines") :
    validateStep tbl [] s = requireAll s ["file", "lines"] ++ backupIssues s := by
  rw [validateStep_known tbl [] s (by rw [h]; decide)]
  simp [h, specRequiredKeys, extraIssues]

theorem errorsOf_backupIssues (s : Step) : errorsOf (backupIssues s) = [] := by
  unfold errorsOf
  rw [List.filter_eq_nil_iff]
  intro i hi
  rw [mem_backupIssues s i hi]
  simp

theorem errorsOf_requireAll (s : Step) (ks : List String) :
    errorsOf (requireAll s ks) = requireAll s ks := by
  unfold errorsOf
  rw [List.filter_eq_self]
  intro i hi
  obtain ⟨k, _, e, _⟩ := (mem_requireAll s ks i).1 hi
  rw [e]
  simp

theorem errorsOf_modeIssues (tbl : Char → Char) (s : Step) (key msg : String) :
    errorsOf (modeIssues tbl s key msg) = modeIssues tbl s key msg := by
  unfold errorsOf
  rw [List.filter_eq_self]
  intro i hi
  rw [mem_modeIssues tbl s key msg i hi]
  simp

theorem errorsOf_append (a b : List Issue) : errorsOf (a ++ b) = errorsOf a ++ errorsOf b := by
  simp [errorsOf]

theorem mapGet_eraseKey_ne (cfg : Config) (key k : String) (h : k ≠ key) :
    mapGet (eraseKey cfg key) k = mapGet cfg k := by
  induction cfg with
  | nil => rfl
  | cons p rest ih =>
    obtain ⟨k2, v2⟩ := p
    by_cases h2 : k2 = key
    · subst h2
      have hk : ¬ k2 = k := fun e => h e.symm
      simp [eraseKey, mapGet, hk, ih]
    · by_cases h3 : k2 = k
      · subst h3
        simp [eraseKey, mapGet, h2]
      · simp [eraseKey, mapGet, h2, h3, ih]

theorem mapGet_eraseKey_self (cfg : Config) (key : String) :
    mapGet (eraseKey cfg key) key = none := by
  induction cfg with
  | nil => rfl
  | cons p rest ih =>
    obtain ⟨k2, v2⟩ := p
    by_cases h2 : k2 = key
    · simp [eraseKey, h2, ih]
    · simp [eraseKey, mapGet, h2, ih]

theorem require_withoutKey (s : Step) (key k : String) (h : k ≠ key) :
    require (withoutKey s key) [] k = require s [] k := by
  unfold require
  simp only [withoutKey, mapGet_eraseKey_ne _ _ _ h, add]

theorem modeIssues_withoutKey (tbl : Char → Char) (s : Step) (m msg : String) :
    modeIssues tbl (withoutKey s "backup") m msg = modeIssues tbl s m msg := by
  unfold modeIssues mapIndex
  simp only [withoutKey, mapGet_eraseKey_ne s.Config "backup" "mode" (by decide)]

theorem backupIssues_withoutKey (s : Step) : backupIssues (withoutKey s "backup") = [] := by
  unfold backupIssues
  simp only [withoutKey, mapGet_eraseKey_self]

theorem backupIssues_false (s : Step) (h : mapGet s.Config "backup" = some (Value.bool false)) :
    backupIssues s = [{ Level := "warn", StepID := s.ID,
                        Message := "backup is disabled; risk of data loss" }] := by
  simp [backupIssues, h, assertBool]

theorem backupIssues_quiet (s : Step)
    (h : mapGet s.Config "backup" = none ∨ mapGet s.Config "backup" = some (Value.bool true)) :
    backupIssues s = [] := by
  rcases h with h | h <;> simp [backupIssues, h, assertBool]

theorem withMessage_append (a b : List Issue) (msg : String) :
    withMessage (a ++ b) msg = withMessage a msg ++ withMessage b msg := by
  simp [withMessage]

theorem withMessage_requireAll (s : Step) (ks : List String) (msg : String)
    (h : msg ∈ extraMessages) : withMessage (requireAll s ks) msg = [] :=
  filter_requireAll s ks msg h

theorem withMessage_modeIssues (tbl : Char → Char) (s : Step) (key : String) :
    withMessage (modeIssues tbl s key "mode must be fixed or regex")
      "backup is disabled; risk of data loss" = [] := by
  unfold withMessage
  rw [List.filter_eq_nil_iff]
  intro i hi
  rw [mem_modeIssues tbl s key _ i hi]
  simp

/-- The issues of a line-editing step, split into those that do not depend on `backup` and
the outcome of the backup rule. -/
theorem validateStep_lineEdit (tbl : Char → Char) (s : Step)
    (h : s.Type_ = "append_lines" ∨ s.Type_ = "delete_lines" ∨ s.Type_ = "replace") :
    ∃ pre : List Issue,
      validateStep tbl [] s = pre ++ backupIssues s
      ∧ validateStep tbl [] (withoutKey s "backup") = pre
      ∧ errorsOf pre = pre
      ∧ withMessage pre "backup is disabled; risk of data loss" = [] := by
  rcases h with h | h | h
  · refine ⟨requireAll s ["file", "lines"], validateStep_appendLines tbl s h, ?_,
      errorsOf_requireAll _ _, withMessage_requireAll _ _ _ (by decide)⟩
    rw [validateStep_appendLines tbl (withoutKey s "backup") h, backupIssues_withoutKey]
    simp [requireAll, require_withoutKey]
  · refine ⟨requireAll s ["file", "match", "mode"]
        ++ modeIssues tbl s "delete_lines" "mode must be fixed or regex", ?_, ?_, ?_, ?_⟩
    · rw [validateStep_delete tbl s h, List.append_assoc]
    · rw [validateStep_delete tbl (withoutKey s "backup") h, backupIssues_withoutKey,
        modeIssues_withoutKey]
      simp [requireAll, require_withoutKey]
    · rw [errorsOf_append, errorsOf_requireAll, errorsOf_modeIssues]
    · rw [withMessage_append, withMessage_requireAll _ _ _ (by decide),
        withMessage_modeIssues]
      rfl
  · refine ⟨requireAll s ["file", "pattern", "replacement", "mode"]
        ++ modeIssues tbl s "replace" "mode must be fixed or regex", ?_, ?_, ?_, ?_⟩
    · rw [validateStep_replace tbl s h, List.append_assoc]
    · rw [validateStep_replace tbl (withoutKey s "backup") h, backupIssues_withoutKey,
        modeIssues_withoutKey]
      simp [requireAll, require_withoutKey]
    · rw [errorsOf_append, errorsOf_requireAll, errorsOf_modeIssues]
    · rw [withMessage_append, withMessage_requireAll _ _ _ (by decide),
        withMessage_modeIssues]
      rfl

/-! ## The claims -/

/-- C1: for a step of a known type and any key `k`, the validator emits the issue
`error / step id / "<k> is required"` exactly when `k` is a required key of the type in the
specification's table and `k` is absent or renders to the empty string; every issue with that
message has this level and step id; and a key bound to the boolean `false` gets no such issue. -/
theorem C1_required_keys (tbl : Char → Char) (r : Recipe) (s : Step) (k : String)
    (h : s.Type_ ∈ knownTypes) :
    (({ Level := "error", StepID := s.ID, Message := k ++ " is required" } : Issue)
        ∈ Validate tbl (withSteps r [s])
      ↔ k ∈ specRequiredKeys s.Type_ ∧ keyEmpty s.Config k)
    ∧ (∀ i ∈ Validate tbl (withSteps r [s]), i.Message = k ++ " is required" →
        i.Level = "error" ∧ i.StepID = s.ID ∧ k ∈ specRequiredKeys s.Type_)
    ∧ (mapGet s.Config k = some (Value.bool false) →
        ∀ i ∈ Validate tbl (withSteps r [s]), i.Message ≠ k ++ " is required") := by
  rw [Validate_single]
  refine ⟨?_, ?_, ?_⟩
  · constructor
    · intro hm
      exact ((required_issue_iff tbl s k _ h).1 ⟨hm, rfl⟩).2
    · intro hk
      exact ((required_issue_iff tbl s k _ h).2 ⟨rfl, hk⟩).1
  · intro i hi hmsg
    obtain ⟨e, hk, _⟩ := (required_issue_iff tbl s k i h).1 ⟨hi, hmsg⟩
    rw [e]
    exact ⟨rfl, rfl, hk⟩
  · intro hb i hi hmsg
    obtain ⟨_, _, he⟩ := (required_issue_iff tbl s k i h).1 ⟨hi, hmsg⟩
    rcases he with he | ⟨v, hv, hv2⟩
    · rw [hb] at he
      exact Option.noConfusion he
    · rw [hb] at hv
      cases hv
      simp [fmtV] at hv2

/-- C1 at a `chmod` step whose `mode` is the boolean `false` and whose `path` is missing:
the missing `path` is reported, the `false` mode is not. -/
theorem C1_required_keys_witness :
    chmodFalseMode.Type_ ∈ knownTypes
    ∧ (({ Level := "error", StepID := "s1", Message := "path is required" } : Issue)
        ∈ Validate id (withSteps (sampleRecipe []) [chmodFalseMode]))
    ∧ (∀ i ∈ Validate id (withSteps (sampleRecipe []) [chmodFalseMode]),
        i.Message ≠ "mode" ++ " is required") :=
  ⟨by decide,
   (C1_required_keys id (sampleRecipe []) chmodFalseMode "path" (by decide)).1.2
      ⟨by decide, Or.inl rfl⟩,
   (C1_required_keys id (sampleRecipe []) chmodFalseMode "mode" (by decide)).2.2 rfl⟩

/-- C2: the validator is a homomorphism of lists: no steps give no issues, and the issues
of a concatenation of step lists are the concatenation of the issues of the two lists. So the
issues depend on the steps only, and exchanging two neighbouring steps exchanges their blocks
of issues and changes nothing else. -/
theorem C2_validate_homomorphism (tbl : Char → Char) (r : Recipe) (s1 s2 : List Step) :
    Validate tbl (withSteps r []) = []
    ∧ Validate tbl (withSteps r (s1 ++ s2))
        = Validate tbl (withSteps r s1) ++ Validate tbl (withSteps r s2)
    ∧ (∀ r2 : Recipe, Validate tbl (withSteps r2 s1) = Validate tbl (withSteps r s1))
    ∧ (∀ x y : Step,
        Validate tbl (withSteps r (s1 ++ [x, y] ++ s2))
          = Validate tbl (withSteps r s1) ++ Validate tbl (withSteps r [x])
            ++ Validate tbl (withSteps r [y]) ++ Validate tbl (withSteps r s2)
        ∧ Validate tbl (withSteps r (s1 ++ [y, x] ++ s2))
          = Validate tbl (withSteps r s1) ++ Validate tbl (withSteps r [y])
            ++ Validate tbl (withSteps r [x]) ++ Validate tbl (withSteps r s2)) := by
  have happ : ∀ a b : List Step, Validate tbl (withSteps r (a ++ b))
      = Validate tbl (withSteps r a) ++ Validate tbl (withSteps r b) := by
    intro a b
    simp only [Validate, withSteps, List.foldl_append]
    exact foldl_validateStep tbl b _
  have hpair : ∀ x y : Step, Validate tbl (withSteps r [x, y])
      = Validate tbl (withSteps r [x]) ++ Validate tbl (withSteps r [y]) :=
    fun x y => happ [x] [y]
  refine ⟨rfl, happ s1 s2, fun _ => rfl, fun x y => ⟨?_, ?_⟩⟩
  · rw [happ, happ, hpair]
    simp only [List.append_assoc]
  · rw [happ, happ, hpair]
    simp only [List.append_assoc]

/-- C3: a step whose type is none of the 14 known ones gets exactly one issue, the warning
`unknown step type <type>` carrying the step's id, whatever its config holds. -/
theorem C3_unknown_type (tbl : Char → Char) (r : Recipe) (s : Step)
    (h : s.Type_ ∉ knownTypes) :
    Validate tbl (withSteps r [s])
      = [{ Level := "warn", StepID := s.ID, Message := "unknown step type " ++ s.Type_ }] := by
  rw [Validate_single, validateStep_unknown tbl [] s h]
  rfl

/-- C3 at a step of type `reboot` whose config is empty of every required key. -/
theorem C3_unknown_type_witness :
    "reboot" ∉ knownTypes ∧
    Validate id (withSteps ⟨"1.0", ⟨"p", "demo", "", []⟩, [], [], 0⟩
        [⟨"s7", "restart", "reboot", [("mode", Value.str "now"), ("backup", Value.bool false)]⟩])
      = [{ Level := "warn", StepID := "s7", Message := "unknown step type " ++ "reboot" }] :=
  ⟨by decide, C3_unknown_type id ⟨"1.0", ⟨"p", "demo", "", []⟩, [], [], 0⟩
    ⟨"s7", "restart", "reboot", [("mode", Value.str "now"), ("backup", Value.bool false)]⟩
    (by decide)⟩

/-- C4: for an `rpm_install` step whose `mode` is the string `m`: when `m` in lower case is
`upgrade` or `install` no issue has the message "mode must be upgrade or install"; otherwise
exactly one issue has it, and that issue is of level `error`. -/
theorem C4_rpm_mode (tbl : Char → Char) (r : Recipe) (s : Step) (m : String)
    (ht : s.Type_ = "rpm_install") (hm : mapGet s.Config "mode" = some (Value.str m)) :
    ((toLower tbl m = "upgrade" ∨ toLower tbl m = "install") →
      withMessage (Validate tbl (withSteps r [s])) "mode must be upgrade or install" = [])
    ∧ (¬ (toLower tbl m = "upgrade" ∨ toLower tbl m = "install") →
      withMessage (Validate tbl (withSteps r [s])) "mode must be upgrade or install"
        = [{ Level := "error", StepID := s.ID, Message := "mode must be upgrade or install" }]) := by
  have hfmt : fmtV (mapIndex s.Config "mode") = m := by
    simp [mapIndex, hm, fmtV]
  rw [Validate_single, validateStep_rpm tbl s ht, withMessage_append,
    withMessage_requireAll s _ _ (by decide), List.nil_append]
  unfold modeIssues
  rw [hfmt, requiredModesAt_rpm]
  constructor
  · intro h
    rw [(contains_pair _ _ _).2 h]
    rfl
  · intro h
    have hc : contains ["upgrade", "install"] (toLower tbl m) = false := by
      cases hh : contains ["upgrade", "install"] (toLower tbl m)
      · rfl
      · exact absurd ((contains_pair _ _ _).1 hh) h
    rw [hc]
    rfl

/-- C4 at the modes `Upgrade`, `UPGRADE` (accepted) and `foo` (one error). -/
theorem C4_rpm_mode_witness :
    (rpmWithMode "Upgrade").Type_ = "rpm_install"
    ∧ mapGet (rpmWithMode "Upgrade").Config "mode" = some (Value.str "Upgrade")
    ∧ (toLower id "Upgrade" = "upgrade" ∨ toLower id "Upgrade" = "install")
    ∧ withMessage (Validate id (withSteps (sampleRecipe []) [rpmWithMode "Upgrade"]))
        "mode must be upgrade or install" = []
    ∧ withMessage (Validate id (withSteps (sampleRecipe []) [rpmWithMode "UPGRADE"]))
        "mode must be upgrade or install" = []
    ∧ ¬ (toLower id "foo" = "upgrade" ∨ toLower id "foo" = "install")
    ∧ withMessage (Validate id (withSteps (sampleRecipe []) [rpmWithMode "foo"]))
        "mode must be upgrade or install"
        = [{ Level := "error", StepID := "s2", Message := "mode must be upgrade or install" }] :=
  ⟨rfl, rfl, by decide,
   (C4_rpm_mode id (sampleRecipe []) (rpmWithMode "Upgrade") "Upgrade" rfl rfl).1 (by decide),
   (C4_rpm_mode id (sampleRecipe []) (rpmWithMode "UPGRADE") "UPGRADE" rfl rfl).1 (by decide),
   by decide,
   (C4_rpm_mode id (sampleRecipe []) (rpmWithMode "foo") "foo" rfl rfl).2 (by decide)⟩

/-- C5: once the body is decoded and the recipe loaded, `exportBundle` answers with the list
of issues and touches no file exactly when the validator reports an issue of level `error`;
without such an issue it never answers with a refusal and goes on to prepare the bundle
directory. -/
theorem C5_export_gate (rt : GoRuntime) (env : ExportEnv) (rec : Recipe)
    (hb : env.bodyDecodes = true) (hl : env.loadRecipe = Except.ok rec) :
    (exportBundle rt env = (Outcome.ok (Response.refused (Validate rt.unicodeLower rec)), [])
      ↔ ∃ i ∈ Validate rt.unicodeLower rec, i.Level = "error")
    ∧ ((∀ i ∈ Validate rt.unicodeLower rec, i.Level ≠ "error") →
        (∀ is_, (exportBundle rt env).1 ≠ Outcome.ok (Response.refused is_))
        ∧ (exportBundle rt env).2.head?
            = some (FsCall.removeAll
                (env.join env.tempDir ("bundle_" ++ rec.Project.Name)))) := by
  have key : (∀ i ∈ Validate rt.unicodeLower rec, i.Level ≠ "error") →
      hasErrorLoop (Validate rt.unicodeLower rec) = false := by
    intro h
    cases hh : hasErrorLoop (Validate rt.unicodeLower rec)
    · rfl
    · obtain ⟨i, hi, hlev⟩ := (hasErrorLoop_iff _).1 hh
      exact absurd hlev (h i hi)
  constructor
  · constructor
    · intro h
      by_contra hne
      have hno : ∀ i ∈ Validate rt.unicodeLower rec, i.Level ≠ "error" :=
        fun i hi hlev => hne ⟨i, hi, hlev⟩
      have := (exportBundle_passed rt env rec hb hl (key hno)).1 (Validate rt.unicodeLower rec)
      rw [h] at this
      exact this rfl
    · intro h
      exact exportBundle_refused rt env rec hb hl ((hasErrorLoop_iff _).2 h)
  · intro h
    exact exportBundle_passed rt env rec hb hl (key h)

/-- C5 at two stored recipes: the one with a `replace` step without `mode` is refused with
its issues and no file call; the one with a valid `mkdir` step is not refused and the handler
starts on the bundle directory. -/
theorem C5_export_gate_witness :
    ((sampleEnv (sampleRecipe [replaceNoMode])).bodyDecodes = true
      ∧ (sampleEnv (sampleRecipe [replaceNoMode])).loadRecipe
          = Except.ok (sampleRecipe [replaceNoMode]))
    ∧ exportBundle sampleRuntime (sampleEnv (sampleRecipe [replaceNoMode]))
        = (Outcome.ok (Response.refused
            [{ Level := "error", StepID := "s1", Message := "mode is required" },
             { Level := "error", StepID := "s1", Message := "mode must be fixed or regex" }]),
           [])
    ∧ ((∀ is_, (exportBundle sampleRuntime (sampleEnv (sampleRecipe [mkdirDemo]))).1
          ≠ Outcome.ok (Response.refused is_))
      ∧ (exportBundle sampleRuntime (sampleEnv (sampleRecipe [mkdirDemo]))).2.head?
          = some (FsCall.removeAll "/tmp/bundle_demo")) :=
  ⟨⟨rfl, rfl⟩,
   (C5_export_gate sampleRuntime (sampleEnv (sampleRecipe [replaceNoMode]))
      (sampleRecipe [replaceNoMode]) rfl rfl).1.2 (by decide),
   (C5_export_gate sampleRuntime (sampleEnv (sampleRecipe [mkdirDemo]))
      (sampleRecipe [mkdirDemo]) rfl rfl).2 (by decide)⟩

/-- C6 (the code at any input): `Render` never returns a result. The constant
`installTemplate` opens the block `range .Recipe.Steps` and never closes it, so `Parse` fails
and `template.Must` panics before any `RenderResponse` is built. -/
theorem C6_render_panics (rt : GoRuntime) (r : Recipe) :
    Render rt r = Outcome.panic "unexpected EOF"
    ∧ ∀ res, Render rt r ≠ Outcome.ok res := by
  rw [Render_panics]
  exact ⟨rfl, fun res h => Outcome.noConfusion h⟩

/-- C7: whatever the order in which the map of checks is enumerated, a command is in the
result of `gatherPreflight` exactly when some step has a type that the specification's mapping
sends to it, no command occurs twice, and the types `mkdir`, `copy`, `chmod`, `chown`,
`run_cmd` and the unknown types are sent to no command. -/
theorem C7_preflight (r : Recipe) (deps : List String) (hp : deps.Perm (gatherPreflight r)) :
    (∀ c, c ∈ deps ↔ ∃ s ∈ r.Steps, c ∈ specCommands s.Type_)
    ∧ deps.Nodup
    ∧ (∀ t, (t ∈ ["mkdir", "copy", "chmod", "chown", "run_cmd"] ∨ t ∉ knownTypes) →
        specCommands t = []) := by
  refine ⟨?_, ?_, ?_⟩
  · intro c
    rw [hp.mem_iff]
    unfold gatherPreflight
    rw [mem_keys_foldl_preflight]
    simp
  · rw [hp.nodup_iff]
    exact nodup_keys_foldl_preflight _ _ (by simp)
  · intro t ht
    rcases ht with ht | ht
    · simp only [List.mem_cons, List.mem_singleton, List.not_mem_nil, or_false] at ht
      rcases ht with ht | ht | ht | ht | ht <;> subst ht <;> decide
    · simp only [knownTypes, List.mem_cons, List.mem_singleton, List.not_mem_nil, or_false,
        not_or] at ht
      obtain ⟨h1, h2, h3, h4, h5, h6, h7, h8, h9, h10, h11, h12, h13, h14⟩ := ht
      simp [specCommands, h5, h6, h7, h8, h9, h10, h12, h13, h14]

/-- C7 at a recipe with a `replace`, an `auto_service`, a `delete_lines` and a `mkdir` step,
with the commands enumerated in another order than the one of their insertion. -/
theorem C7_preflight_witness :
    (["systemctl", "grep", "sed"].Perm
      (gatherPreflight ⟨"1.0", ⟨"p", "demo", "", []⟩, [],
        [⟨"a", "", "replace", []⟩, ⟨"b", "", "auto_service", []⟩,
         ⟨"c", "", "delete_lines", []⟩, ⟨"d", "", "mkdir", []⟩], 0⟩))
    ∧ ((∀ c, c ∈ ["systemctl", "grep", "sed"] ↔
        ∃ s ∈ [(⟨"a", "", "replace", []⟩ : Step), ⟨"b", "", "auto_service", []⟩,
          ⟨"c", "", "delete_lines", []⟩, ⟨"d", "", "mkdir", []⟩], c ∈ specCommands s.Type_)
      ∧ ["systemctl", "grep", "sed"].Nodup
      ∧ (∀ t, (t ∈ ["mkdir", "copy", "chmod", "chown", "run_cmd"] ∨ t ∉ knownTypes) →
          specCommands t = [])) :=
  ⟨by decide, C7_preflight ⟨"1.0", ⟨"p", "demo", "", []⟩, [],
        [⟨"a", "", "replace", []⟩, ⟨"b", "", "auto_service", []⟩,
         ⟨"c", "", "delete_lines", []⟩, ⟨"d", "", "mkdir", []⟩], 0⟩
      ["systemctl", "grep", "sed"] (by decide)⟩

/-- C8: a `replace` or `delete_lines` step without a `mode` key gets the error
"mode is required" and, right after it, the error "mode must be fixed or regex". -/
theorem C8_double_issue (tbl : Char → Char) (r : Recipe) (s : Step)
    (ht : s.Type_ = "replace" ∨ s.Type_ = "delete_lines")
    (hm : mapGet s.Config "mode" = none) :
    ∃ pre post : List Issue,
      Validate tbl (withSteps r [s])
        = pre ++ [{ Level := "error", StepID := s.ID, Message := "mode is required" },
                  { Level := "error", StepID := s.ID,
                    Message := "mode must be fixed or regex" }] ++ post := by
  rw [Validate_single]
  rcases ht with ht | ht
  · refine ⟨requireAll s ["file", "pattern", "replacement"], backupIssues s, ?_⟩
    rw [validateStep_replace tbl s ht, (modeIssues_absent tbl s _ hm).1]
    simp [requireAll, require_absent s "mode" hm]
  · refine ⟨requireAll s ["file", "match"], backupIssues s, ?_⟩
    rw [validateStep_delete tbl s ht, (modeIssues_absent tbl s _ hm).2]
    simp [requireAll, require_absent s "mode" hm]

/-- C8 at a `replace` step that has `file`, `pattern` and `replacement` and no `mode`. -/
theorem C8_double_issue_witness :
    (replaceNoMode.Type_ = "replace" ∨ replaceNoMode.Type_ = "delete_lines")
    ∧ mapGet replaceNoMode.Config "mode" = none
    ∧ ∃ pre post : List Issue,
        Validate id (withSteps (sampleRecipe []) [replaceNoMode])
          = pre ++ [{ Level := "error", StepID := replaceNoMode.ID,
                      Message := "mode is required" },
                    { Level := "error", StepID := replaceNoMode.ID,
                      Message := "mode must be fixed or regex" }] ++ post :=
  ⟨Or.inl rfl, rfl, C8_double_issue id (sampleRecipe []) replaceNoMode (Or.inl rfl) rfl⟩

/-- C9 fails as stated: the recipe whose only step is a `replace` step with `file`, `pattern`
and `replacement` set and no `mode` gets two issues of level `error`, not one. -/
theorem C9_single_error_counterexample :
    replaceNoMode.Type_ = "replace"
    ∧ mapGet replaceNoMode.Config "mode" = none
    ∧ errorsOf (Validate id (sampleRecipe [replaceNoMode]))
        = [{ Level := "error", StepID := "s1", Message := "mode is required" },
           { Level := "error", StepID := "s1", Message := "mode must be fixed or regex" }]
    ∧ errorsOf (Validate id (sampleRecipe [replaceNoMode]))
        ≠ [{ Level := "error", StepID := "s1", Message := "mode is required" }] := by
  refine ⟨rfl, rfl, ?_, ?_⟩ <;> decide

/-- C9 as amended: a recipe whose only step is a `replace` step with non-empty `file`,
`pattern` and `replacement` and no `mode` key gets exactly two issues of level `error`:
"mode is required" followed by "mode must be fixed or regex". -/
theorem C9_replace_without_mode (tbl : Char → Char) (r : Recipe) (s : Step)
    (ht : s.Type_ = "replace")
    (hf : ¬ keyEmpty s.Config "file") (hp : ¬ keyEmpty s.Config "pattern")
    (hr : ¬ keyEmpty s.Config "replacement") (hm : mapGet s.Config "mode" = none) :
    errorsOf (Validate tbl (withSteps r [s]))
      = [{ Level := "error", StepID := s.ID, Message := "mode is required" },
         { Level := "error", StepID := s.ID, Message := "mode must be fixed or regex" }] := by
  rw [Validate_single, validateStep_replace tbl s ht, (modeIssues_absent tbl s _ hm).1,
    errorsOf_append, errorsOf_append, errorsOf_backupIssues, errorsOf_requireAll]
  simp [requireAll, require_present s _ hf, require_present s _ hp, require_present s _ hr,
    require_absent s "mode" hm, errorsOf]

/-- C9 as amended, at the `replace` step of the counterexample. -/
theorem C9_replace_without_mode_witness :
    replaceNoMode.Type_ = "replace"
    ∧ ¬ keyEmpty replaceNoMode.Config "file"
    ∧ ¬ keyEmpty replaceNoMode.Config "pattern"
    ∧ ¬ keyEmpty replaceNoMode.Config "replacement"
    ∧ mapGet replaceNoMode.Config "mode" = none
    ∧ errorsOf (Validate id (withSteps (sampleRecipe []) [replaceNoMode]))
        = [{ Level := "error", StepID := replaceNoMode.ID, Message := "mode is required" },
           { Level := "error", StepID := replaceNoMode.ID,
             Message := "mode must be fixed or regex" }] :=
  ⟨rfl, by simp [keyEmpty, replaceNoMode, mapGet, fmtV],
    by simp [keyEmpty, replaceNoMode, mapGet, fmtV],
    by simp [keyEmpty, replaceNoMode, mapGet, fmtV], rfl,
    C9_replace_without_mode id (sampleRecipe []) replaceNoMode rfl
      (by simp [keyEmpty, replaceNoMode, mapGet, fmtV])
      (by simp [keyEmpty, replaceNoMode, mapGet, fmtV])
      (by simp [keyEmpty, replaceNoMode, mapGet, fmtV]) rfl⟩

/-- C10: for an `append_lines`, `delete_lines` or `replace` step: when `backup` is the boolean
`false`, exactly one issue carries "backup is disabled; risk of data loss", it is a warning,
and the issues of level `error` are those of the same step without the `backup` key; when
`backup` is absent or the boolean `true`, no issue carries that message. -/
theorem C10_backup_warning (tbl : Char → Char) (r : Recipe) (s : Step)
    (ht : s.Type_ = "append_lines" ∨ s.Type_ = "delete_lines" ∨ s.Type_ = "replace") :
    (mapGet s.Config "backup" = some (Value.bool false) →
      withMessage (Validate tbl (withSteps r [s])) "backup is disabled; risk of data loss"
          = [{ Level := "warn", StepID := s.ID,
               Message := "backup is disabled; risk of data loss" }]
      ∧ errorsOf (Validate tbl (withSteps r [s]))
          = errorsOf (Validate tbl (withSteps r [withoutKey s "backup"])))
    ∧ ((mapGet s.Config "backup" = none ∨ mapGet s.Config "backup" = some (Value.bool true)) →
      withMessage (Validate tbl (withSteps r [s])) "backup is disabled; risk of data loss"
          = []) := by
  obtain ⟨pre, h1, h2, h3, h4⟩ := validateStep_lineEdit tbl s ht
  rw [Validate_single, Validate_single, h1, h2]
  constructor
  · intro hb
    rw [backupIssues_false s hb, withMessage_append, h4, errorsOf_append, h3]
    constructor
    · simp [withMessage]
    · simp [errorsOf]
  · intro hb
    rw [backupIssues_quiet s hb, withMessage_append, h4]
    rfl

/-- C10 at a `delete_lines` step with `backup` set to `false` and a mode that is not
allowed (one warning, the errors unchanged), and at an `append_lines` step with `backup` set
to `true` (no warning). -/
theorem C10_backup_warning_witness :
    (deleteNoBackup.Type_ = "append_lines" ∨ deleteNoBackup.Type_ = "delete_lines"
      ∨ deleteNoBackup.Type_ = "replace")
    ∧ mapGet deleteNoBackup.Config "backup" = some (Value.bool false)
    ∧ (withMessage (Validate id (withSteps (sampleRecipe []) [deleteNoBackup]))
          "backup is disabled; risk of data loss"
        = [{ Level := "warn", StepID := "s4",
             Message := "backup is disabled; risk of data loss" }]
      ∧ errorsOf (Validate id (withSteps (sampleRecipe []) [deleteNoBackup]))
        = errorsOf (Validate id (withSteps (sampleRecipe [])
            [withoutKey deleteNoBackup "backup"])))
    ∧ withMessage (Validate id (withSteps (sampleRecipe []) [appendWithBackup]))
        "backup is disabled; risk of data loss" = [] :=
  ⟨Or.inr (Or.inl rfl), rfl,
   (C10_backup_warning id (sampleRecipe []) deleteNoBackup (Or.inr (Or.inl rfl))).1 rfl,
   (C10_backup_warning id (sampleRecipe []) appendWithBackup (Or.inl rfl)).2
      (Or.inr rfl)⟩

/-! ## Lemmas on the issues of a recipe -/

theorem mem_foldl_validateStep (tbl : Char → Char) (steps : List Step) (i : Issue) :
    i ∈ steps.foldl (validateStep tbl) [] ↔ ∃ s ∈ steps, i ∈ validateStep tbl [] s := by
  induction steps with
  | nil => simp
  | cons x rest ih =>
    rw [List.foldl_cons, foldl_validateStep, List.mem_append, ih]
    simp only [List.mem_cons, exists_eq_or_imp]

theorem mem_extraIssues_level (tbl : Char → Char) (step : Step) (i : Issue)
    (h : i ∈ extraIssues tbl step) : i.Level = "error" ∨ i.Level = "warn" := by
  unfold extraIssues at h
  split_ifs at h
  · rw [mem_absentIssues _ _ _ _ h]; exact Or.inr rfl
  · rw [mem_modeIssues _ _ _ _ _ h]; exact Or.inl rfl
  · rw [mem_backupIssues _ _ h]; exact Or.inr rfl
  · rcases List.mem_append.1 h with h | h
    · rw [mem_modeIssues _ _ _ _ _ h]; exact Or.inl rfl
    · rw [mem_backupIssues _ _ h]; exact Or.inr rfl
  · rcases List.mem_append.1 h with h | h
    · rw [mem_modeIssues _ _ _ _ _ h]; exact Or.inl rfl
    · rw [mem_backupIssues _ _ h]; exact Or.inr rfl
  · rw [mem_absentIssues _ _ _ _ h]; exact Or.inr rfl
  · simp at h

theorem level_stepID_of_mem (tbl : Char → Char) (s : Step) (i : Issue)
    (h : i ∈ validateStep tbl [] s) :
    (i.Level = "error" ∨ i.Level = "warn") ∧ i.StepID = s.ID := by
  by_cases hk : s.Type_ ∈ knownTypes
  · rw [validateStep_known tbl [] s hk, List.nil_append, List.mem_append] at h
    rcases h with h | h
    · obtain ⟨k, _, e, _⟩ := (mem_requireAll s _ i).1 h
      rw [e]
      exact ⟨Or.inl rfl, rfl⟩
    · exact ⟨mem_extraIssues_level tbl s i h, (mem_extraIssues tbl s i h).1⟩
  · rw [validateStep_unknown tbl [] s hk, List.nil_append, List.mem_singleton] at h
    rw [h]
    exact ⟨Or.inr rfl, rfl⟩

/-! ## Lemmas on the template branches -/

theorem tmplIndex_bool (cfg : Config) (k : String) (b : Bool)
    (h : mapGet cfg k = some (Value.bool b)) : tmplIndex cfg k = some (Value.bool b) := by
  simp [tmplIndex, h]

theorem tmplIndex_absent (cfg : Config) (k : String) (h : mapGet cfg k = none) :
    tmplIndex cfg k = none := by
  simp [tmplIndex, h]

theorem startSkipped_started (cfg : Config)
    (h : mapGet cfg "start" = some (Value.bool true)) :
    startSkipped cfg = Except.ok false := by
  simp [startSkipped, tmplIndex_bool cfg "start" true h, tmplTruth, tmplEqFalse]

theorem startSkipped_skipped (cfg : Config)
    (h : mapGet cfg "start" = none ∨ mapGet cfg "start" = some (Value.bool false)) :
    startSkipped cfg = Except.ok true := by
  rcases h with h | h
  · simp [startSkipped, tmplIndex_absent cfg "start" h, tmplTruth]
  · simp [startSkipped, tmplIndex_bool cfg "start" false h, tmplTruth]

theorem append_literal (a b c x : String) (h : a ++ b = c) : a ++ (b ++ x) = c ++ x := by
  rw [← String.append_assoc, h]

set_option maxRecDepth 1000000 in
theorem template_cd_lines :
    installTemplateLines.filter (mentions "cd ")
      = ["SCRIPT_DIR=$(cd \"$(dirname \"$0\")\" && pwd)",
         "    \x7b\x7bif index .Config \"cwd\"\x7d\x7d(cd \"\x7b\x7bindex .Config \"cwd\"\x7d\x7d\" && \x7b\x7bindex .Config \"cmd\"\x7d\x7d)\x7b\x7belse\x7d\x7d\x7b\x7bindex .Config \"cmd\"\x7d\x7d\x7b\x7bend\x7d\x7d"] := by
  rfl

/-! ## The claims on rendering -/

/-- C11 (the code at any input): `renderInstall` produces no script at all, so no step block
and no progress marker is generated for any step: the parse of `installTemplate` fails on
the unclosed block `range .Recipe.Steps` and `template.Must` panics. -/
theorem C11_no_script (rt : GoRuntime) (r : Recipe) :
    renderInstall rt r = Outcome.panic "unexpected EOF"
    ∧ ∀ text, renderInstall rt r ≠ Outcome.ok text := by
  rw [renderInstall_panics]
  exact ⟨rfl, fun text h => Outcome.noConfusion h⟩

/-- C12 (the code at every recipe without steps): the validator reports nothing and the
preflight map stays empty, but `Render` panics in `renderInstall` and returns no response. -/
theorem C12_zero_steps (rt : GoRuntime) (r : Recipe) :
    Validate rt.unicodeLower (withSteps r []) = []
    ∧ gatherPreflight (withSteps r []) = []
    ∧ Render rt (withSteps r []) = Outcome.panic "unexpected EOF"
    ∧ ∀ res, Render rt (withSteps r []) ≠ Outcome.ok res := by
  rw [Render_panics]
  exact ⟨rfl, rfl, rfl, fun res h => Outcome.noConfusion h⟩

/-- C13 (the code at the scenario): for the recipe with the one step `mkdir /opt/demo` and the
vars `INSTALL_ROOT` and `LOG_DIR`, the validator reports nothing, no command is inferred and
the `mkdir` branch of the template would print one `mkdir -p` for `/opt/demo`, but `Render`
panics and returns no script. -/
theorem C13_mkdir_scenario :
    (sampleRecipe [mkdirDemo]).Vars = [("INSTALL_ROOT", "/opt/demo"), ("LOG_DIR", "/var/log/asg")]
    ∧ Validate id (sampleRecipe [mkdirDemo]) = []
    ∧ gatherPreflight (sampleRecipe [mkdirDemo]) = []
    ∧ mkdirBranch mkdirDemo = ["    mkdir -p \"/opt/demo\""]
    ∧ Render sampleRuntime (sampleRecipe [mkdirDemo]) = Outcome.panic "unexpected EOF" := by
  refine ⟨rfl, by decide, by decide, by decide, Render_panics _ _⟩

/-- C16 (the code at an extract step with `creates` set): the branches `extract_tar_gz` and
`extract_zip` of the template hold the guard on `creates` with the skip notice, and `mkdir -p`
and the extraction in its else part, but `Render` panics and no block is generated. -/
theorem C16_extract_guard :
    extractTarGzBranch extractDemo
      = ["    if [ -n \"/opt/demo/bin\" ] && [ -e \"/opt/demo/bin\" ]; then",
         "      echo \"skip extract_tar_gz because creates exists\"",
         "    else",
         "      mkdir -p \"/opt/demo\"",
         "      tar -xzf \"app.tar.gz\" -C \"/opt/demo\"",
         "    fi"]
    ∧ extractZipBranch extractDemo
      = ["    if [ -n \"/opt/demo/bin\" ] && [ -e \"/opt/demo/bin\" ]; then",
         "      echo \"skip extract_zip because creates exists\"",
         "    else",
         "      mkdir -p \"/opt/demo\"",
         "      unzip -o \"app.tar.gz\" -d \"/opt/demo\"",
         "    fi"]
    ∧ renderInstall sampleRuntime (sampleRecipe [extractDemo]) = Outcome.panic "unexpected EOF"
    ∧ Render sampleRuntime (sampleRecipe [extractDemo]) = Outcome.panic "unexpected EOF" := by
  refine ⟨by decide, by decide, renderInstall_panics _ _, Render_panics _ _⟩

/-- C18: every issue of the validator has the level `error` or `warn` and carries the id of a
step of the recipe, namely of a step whose own validation produces that issue. -/
theorem C18_issue_wellformed (tbl : Char → Char) (r : Recipe) (i : Issue)
    (h : i ∈ Validate tbl r) :
    (i.Level = "error" ∨ i.Level = "warn")
    ∧ ∃ s ∈ r.Steps, i.StepID = s.ID ∧ i ∈ Validate tbl (withSteps r [s]) := by
  unfold Validate at h
  obtain ⟨s, hs, hi⟩ := (mem_foldl_validateStep tbl r.Steps i).1 h
  obtain ⟨hl, hid⟩ := level_stepID_of_mem tbl s i hi
  refine ⟨hl, s, hs, hid, ?_⟩
  rw [Validate_single]
  exact hi

/-- C18 at an issue of the second step of a recipe with two steps. -/
theorem C18_issue_wellformed_witness :
    (({ Level := "error", StepID := "s1", Message := "mode must be fixed or regex" } : Issue)
      ∈ Validate id (sampleRecipe [rebootStep, replaceNoMode]))
    ∧ (("error" : String) = "error" ∨ ("error" : String) = "warn")
    ∧ ∃ s ∈ (sampleRecipe [rebootStep, replaceNoMode]).Steps,
        ({ Level := "error", StepID := "s1", Message := "mode must be fixed or regex" }
          : Issue).StepID = s.ID
        ∧ ({ Level := "error", StepID := "s1", Message := "mode must be fixed or regex" }
          : Issue) ∈ Validate id (withSteps (sampleRecipe [rebootStep, replaceNoMode]) [s]) :=
  ⟨by decide,
   C18_issue_wellformed id (sampleRecipe [rebootStep, replaceNoMode])
     { Level := "error", StepID := "s1", Message := "mode must be fixed or regex" }
     (by decide)⟩

/-- C14 fails as stated: for a `service_sysv` step without a `start` key the branch of the
template ends in the no-op `true`, and the command `service app start` is not among its
lines. -/
theorem C14_absent_start_counterexample :
    mapGet sysvNoStart.Config "start" = none
    ∧ serviceSysvBranch sysvNoStart
        = Except.ok
          ["    cp \"app.init\" \"/etc/init.d/app\"",
           "    chmod +x \"/etc/init.d/app\"",
           "    if command -v chkconfig >/dev/null 2>&1; then",
           "      chkconfig --add app",
           "      chkconfig app on",
           "    else",
           "      echo \"chkconfig not found; ensure service enabled manually\" >&2",
           "    fi",
           "    true"]
    ∧ ∀ lines, serviceSysvBranch sysvNoStart = Except.ok lines →
        "    service app start" ∉ lines := by
  refine ⟨rfl, rfl, ?_⟩
  intro lines h
  have e : serviceSysvBranch sysvNoStart
      = Except.ok
          ["    cp \"app.init\" \"/etc/init.d/app\"",
           "    chmod +x \"/etc/init.d/app\"",
           "    if command -v chkconfig >/dev/null 2>&1; then",
           "      chkconfig --add app",
           "      chkconfig app on",
           "    else",
           "      echo \"chkconfig not found; ensure service enabled manually\" >&2",
           "    fi",
           "    true"] := rfl
  rw [e] at h
  cases h
  decide

/-- C14 as amended: in the branches `service_sysv`, `service_systemd` and `auto_service` of
the template the start command (`service <name> start`, `systemctl enable --now <name>`)
stands at its place when `start` is the boolean `true`; when `start` is absent or the boolean
`false` the no-op `true` stands there instead. -/
theorem C14_service_start (s : Step) :
    (mapGet s.Config "start" = some (Value.bool true) →
      branchLength (serviceSysvBranch s) = some 9
      ∧ branchLine (serviceSysvBranch s) 8
          = some ("    service " ++ tmplPrint (tmplIndex s.Config "name") ++ " start")
      ∧ branchLength (serviceSystemdBranch s) = some 3
      ∧ branchLine (serviceSystemdBranch s) 2
          = some ("    systemctl enable --now " ++ tmplPrint (tmplIndex s.Config "name"))
      ∧ branchLength (autoServiceBranch s) = some 15
      ∧ branchLine (autoServiceBranch s) 3
          = some ("      systemctl enable --now " ++ tmplPrint (tmplIndex s.Config "name"))
      ∧ branchLine (autoServiceBranch s) 13
          = some ("      service " ++ tmplPrint (tmplIndex s.Config "name") ++ " start"))
    ∧ ((mapGet s.Config "start" = none ∨ mapGet s.Config "start" = some (Value.bool false)) →
      branchLength (serviceSysvBranch s) = some 9
      ∧ branchLine (serviceSysvBranch s) 8 = some "    true"
      ∧ branchLength (serviceSystemdBranch s) = some 3
      ∧ branchLine (serviceSystemdBranch s) 2 = some "    true"
      ∧ branchLength (autoServiceBranch s) = some 15
      ∧ branchLine (autoServiceBranch s) 3 = some "      true"
      ∧ branchLine (autoServiceBranch s) 13 = some "      true") := by
  refine ⟨?_, ?_⟩
  · intro h
    simp only [serviceSysvBranch, serviceSystemdBranch, autoServiceBranch,
      startSkipped_started s.Config h, branchLine, branchLength, String.append_assoc]
    simp only [List.length_cons, List.length_nil, List.get?_cons_succ, List.get?_cons_zero,
      Bool.false_eq_true, if_false, true_and, Option.some.injEq, Nat.reduceAdd]
    refine ⟨?_, ?_, ?_, ?_⟩ <;> exact append_literal _ _ _ _ (by decide)
  · intro h
    simp [serviceSysvBranch, serviceSystemdBranch, autoServiceBranch,
      startSkipped_skipped s.Config h, branchLine, branchLength]

/-- C14 as amended, at an `auto_service` step with `start` set to `true` and at a
`service_sysv` step without `start`. -/
theorem C14_service_start_witness :
    mapGet autoStart.Config "start" = some (Value.bool true)
    ∧ branchLine (autoServiceBranch autoStart) 3 = some "      systemctl enable --now app"
    ∧ branchLine (autoServiceBranch autoStart) 13 = some "      service app start"
    ∧ mapGet sysvNoStart.Config "start" = none
    ∧ branchLine (serviceSysvBranch sysvNoStart) 8 = some "    true" :=
  ⟨rfl, ((C14_service_start autoStart).1 rfl).2.2.2.2.2.1,
   ((C14_service_start autoStart).1 rfl).2.2.2.2.2.2, rfl,
   ((C14_service_start sysvNoStart).2 (Or.inl rfl)).2.1⟩

/-- C15 fails as stated: for a `copy` step whose `overwrite` is the string `no`, a value
other than `true`, the branch of the template prints the force form `cp -f`. -/
theorem C15_overwrite_string_counterexample :
    mapGet copyOverwriteNo.Config "overwrite" = some (Value.str "no")
    ∧ copyBranch copyOverwriteNo = ["    cp -f \"app.conf\" \"/etc/app.conf\"", "    "]
    ∧ copyBranch copyOverwriteNo ≠ ["    cp -n \"app.conf\" \"/etc/app.conf\"", "    "] := by
  refine ⟨rfl, by decide, by decide⟩

/-- C15 as amended: the `copy` branch of the template has two lines. The first is the copy
command, in the force form `cp -f` when `overwrite` is true for the template (the boolean
`true`, a non-empty string, a non-zero number, a non-empty list or map) and in the form
`cp -n` otherwise (absent, null, `false`, empty or zero). The second holds
`chmod <mode> "<dest>"` when `mode` is true in the same sense and is blank otherwise. -/
theorem C15_copy_forms (s : Step) :
    (copyBranch s).length = 2
    ∧ (tmplTruth (tmplIndex s.Config "overwrite") = true →
        (copyBranch s).get? 0 = some ("    cp -f \"" ++ tmplPrint (tmplIndex s.Config "src")
          ++ "\" \"" ++ tmplPrint (tmplIndex s.Config "dest") ++ "\""))
    ∧ (tmplTruth (tmplIndex s.Config "overwrite") = false →
        (copyBranch s).get? 0 = some ("    cp -n \"" ++ tmplPrint (tmplIndex s.Config "src")
          ++ "\" \"" ++ tmplPrint (tmplIndex s.Config "dest") ++ "\""))
    ∧ (tmplTruth (tmplIndex s.Config "mode") = true →
        (copyBranch s).get? 1 = some ("    chmod " ++ tmplPrint (tmplIndex s.Config "mode")
          ++ " \"" ++ tmplPrint (tmplIndex s.Config "dest") ++ "\""))
    ∧ (tmplTruth (tmplIndex s.Config "mode") = false → (copyBranch s).get? 1 = some "    ")
    ∧ (mapGet s.Config "overwrite" = some (Value.bool true) →
        tmplTruth (tmplIndex s.Config "overwrite") = true)
    ∧ ((mapGet s.Config "overwrite" = none ∨ mapGet s.Config "overwrite" = some Value.null
          ∨ mapGet s.Config "overwrite" = some (Value.bool false)) →
        tmplTruth (tmplIndex s.Config "overwrite") = false)
    ∧ (∀ t, mapGet s.Config "overwrite" = some (Value.str t) →
        (tmplTruth (tmplIndex s.Config "overwrite") = true ↔ t ≠ ""))
    ∧ (∀ t, mapGet s.Config "mode" = some (Value.str t) →
        (tmplTruth (tmplIndex s.Config "mode") = true ↔ t ≠ ""))
    ∧ (mapGet s.Config "mode" = none → tmplTruth (tmplIndex s.Config "mode") = false) := by
  refine ⟨rfl, ?_, ?_, ?_, ?_, ?_, ?_, ?_, ?_, ?_⟩
  · intro h
    simp [copyBranch, h, ← String.append_assoc]
  · intro h
    simp [copyBranch, h, ← String.append_assoc]
  · intro h
    simp [copyBranch, h, ← String.append_assoc]
  · intro h
    simp only [copyBranch, h, Bool.false_eq_true, if_false, List.get?_cons_succ,
      List.get?_cons_zero, Option.some.injEq]
    decide
  · intro h
    simp [tmplIndex, h, tmplTruth]
  · rintro (h | h | h) <;> simp [tmplIndex, h, tmplTruth]
  · intro t h
    simp [tmplIndex, h, tmplTruth]
  · intro t h
    simp [tmplIndex, h, tmplTruth]
  · intro h
    simp [tmplIndex, h, tmplTruth]

/-- C15 as amended, at a `copy` step with `overwrite` set to `true` and a `mode`, and at the
step of the counterexample. -/
theorem C15_copy_forms_witness :
    tmplTruth (tmplIndex copyForce.Config "overwrite") = true
    ∧ (copyBranch copyForce).get? 0 = some "    cp -f \"app.conf\" \"/etc/app.conf\""
    ∧ tmplTruth (tmplIndex copyForce.Config "mode") = true
    ∧ (copyBranch copyForce).get? 1 = some "    chmod 0644 \"/etc/app.conf\""
    ∧ tmplTruth (tmplIndex copyOverwriteNo.Config "mode") = false
    ∧ (copyBranch copyOverwriteNo).get? 1 = some "    " :=
  ⟨rfl, (C15_copy_forms copyForce).2.1 rfl, rfl, (C15_copy_forms copyForce).2.2.2.1 rfl,
   rfl, (C15_copy_forms copyOverwriteNo).2.2.2.2.1 rfl⟩

/-- C19 (the code at an `rpm_install` step with mode `Upgrade`): the validator lower-cases
the mode and accepts the step without an issue, while the branch of the template copies the
mode as written into the test `[ "Upgrade" = "upgrade" ]`, whose operands differ, so the
else part `rpm -ivh` is the one that runs; and `Render` panics before any of it is printed. -/
theorem C19_mode_case_mismatch :
    toLower id "Upgrade" = "upgrade"
    ∧ Validate id (sampleRecipe [rpmWithMode "Upgrade"]) = []
    ∧ rpmInstallBranch (rpmWithMode "Upgrade")
        = Except.ok
          ["    for rpm in  \"app.rpm\"; do",
           "      if [ \"Upgrade\" = \"upgrade\" ]; then",
           "        rpm -Uvh $rpm ",
           "      else",
           "        rpm -ivh $rpm ",
           "      fi",
           "    done"]
    ∧ tmplPrint (tmplIndex (rpmWithMode "Upgrade").Config "mode") ≠ "upgrade"
    ∧ (∀ m : String, branchLine (rpmInstallBranch (rpmWithMode m)) 1
        = some ("      if [ \"" ++ m ++ "\" = \"upgrade\" ]; then"))
    ∧ Render sampleRuntime (sampleRecipe [rpmWithMode "Upgrade"])
        = Outcome.panic "unexpected EOF" := by
  refine ⟨by decide, by decide, rfl, by decide, ?_, Render_panics _ _⟩
  intro m
  rfl

/-- C20 (the code at a `run_cmd` step without `cwd`): the validator warns that the command
will run from the script directory, but the branch of the template prints the bare command,
the only lines of the template that mention `cd` are the assignment of `SCRIPT_DIR` (in a
subshell) and the `run_cmd` line itself, and `Render` panics before any of it is printed. -/
theorem C20_run_cmd_without_cwd :
    mapGet runCmdNoCwd.Config "cwd" = none
    ∧ Validate id (sampleRecipe [runCmdNoCwd])
        = [{ Level := "warn", StepID := "s10",
             Message := "cwd is not set; command will run from script directory" }]
    ∧ runCmdBranch runCmdNoCwd = ["    make install"]
    ∧ installTemplateLines.filter (mentions "cd ")
        = ["SCRIPT_DIR=$(cd \"$(dirname \"$0\")\" && pwd)",
           "    \x7b\x7bif index .Config \"cwd\"\x7d\x7d(cd \"\x7b\x7bindex .Config \"cwd\"\x7d\x7d\" && \x7b\x7bindex .Config \"cmd\"\x7d\x7d)\x7b\x7belse\x7d\x7d\x7b\x7bindex .Config \"cmd\"\x7d\x7d\x7b\x7bend\x7d\x7d"]
    ∧ Render sampleRuntime (sampleRecipe [runCmdNoCwd]) = Outcome.panic "unexpected EOF" := by
  refine ⟨rfl, by decide, by decide, template_cd_lines, Render_panics _ _⟩

/-! ## Lemmas for the README and the remaining rules of the validator -/

theorem validateStep_extract (tbl : Char → Char) (s : Step)
    (h : s.Type_ = "extract_tar_gz" ∨ s.Type_ = "extract_zip") :
    validateStep tbl [] s
      = requireAll s ["src", "dest"]
        ++ absentIssues s "creates" "creates is not set; idempotency may be improved" := by
  rcases h with h | h
  · rw [validateStep_known tbl [] s (by rw [h]; decide)]
    simp [h, specRequiredKeys, extraIssues]
  · rw [validateStep_known tbl [] s (by rw [h]; decide)]
    simp [h, specRequiredKeys, extraIssues]

theorem assertBool_of_ne_true (v : Value) (h : v ≠ Value.bool true) : assertBool v = false := by
  cases v with
  | bool b =>
    cases b
    · rfl
    · exact absurd rfl h
  | null => rfl
  | num f => rfl
  | str t => rfl
  | arr xs => rfl
  | obj kvs => rfl

theorem backupIssues_not_true (s : Step) (v : Value) (h : mapGet s.Config "backup" = some v)
    (hv : v ≠ Value.bool true) :
    backupIssues s = [{ Level := "warn", StepID := s.ID,
                        Message := "backup is disabled; risk of data loss" }] := by
  simp [backupIssues, h, assertBool_of_ne_true v hv]

set_option maxRecDepth 100000 in
theorem readme_sample :
    renderReadme (sampleRecipe [])
      = "InstallForge bundle\\n===================\\n\\nProject: demo\\nTargets: [oracle_linux_6_9 kylinsec_3_4]\\n\\nUsage:\\n  chmod +x install.sh\\n  sudo ./install.sh\\n\\nLogs are written under \x7b\x7bLOG_DIR\x7d\x7d (default /var/log/asg).\\n" := by
  decide

set_option maxRecDepth 100000 in
theorem readme_sample_no_newline : '\n' ∉ (renderReadme (sampleRecipe [])).data := by
  decide

set_option maxRecDepth 100000 in
theorem readme_sample_usage :
    mentions "chmod +x install.sh\\n  sudo ./install.sh" (renderReadme (sampleRecipe []))
      = true := by
  decide

set_option maxRecDepth 100000 in
theorem readme_other : renderReadme otherRecipe = renderReadme (sampleRecipe []) := by
  decide

/-! ## The claims on the README and the remaining rules of the validator -/

/-- C21 (the code at the starter recipe): the README is one single line. The format of
`renderReadme` is a raw string, so what stands between the usage commands is a backslash and
the letter n, and the text holds no newline character; for every recipe the README ends in the same usage text
without a newline character. The README is the same for recipes that agree on project name
and targets, whatever their steps, vars and other fields. -/
theorem C21_readme_one_line :
    renderReadme (sampleRecipe [])
      = "InstallForge bundle\\n===================\\n\\nProject: demo\\nTargets: [oracle_linux_6_9 kylinsec_3_4]\\n\\nUsage:\\n  chmod +x install.sh\\n  sudo ./install.sh\\n\\nLogs are written under \x7b\x7bLOG_DIR\x7d\x7d (default /var/log/asg).\\n"
    ∧ '\n' ∉ (renderReadme (sampleRecipe [])).data
    ∧ mentions "chmod +x install.sh\\n  sudo ./install.sh" (renderReadme (sampleRecipe [])) = true
    ∧ renderReadme otherRecipe = renderReadme (sampleRecipe [])
    ∧ (∀ r : Recipe, ∃ head : String,
        renderReadme r = head ++ ("\\n\\nUsage:\\n  chmod +x install.sh\\n  sudo ./install.sh\\n\\n"
          ++ "Logs are written under \x7b\x7bLOG_DIR\x7d\x7d (default /var/log/asg).\\n")
        ∧ '\n' ∉ ("\\n\\nUsage:\\n  chmod +x install.sh\\n  sudo ./install.sh\\n\\n"
          ++ "Logs are written under \x7b\x7bLOG_DIR\x7d\x7d (default /var/log/asg).\\n").data)
    ∧ (∀ (name : String) (target : List String) (sv1 sv2 id1 id2 d1 d2 : String)
        (vars1 vars2 : List (String × String)) (steps1 steps2 : List Step) (t1 t2 : Nat),
        renderReadme ⟨sv1, ⟨id1, name, d1, target⟩, vars1, steps1, t1⟩
          = renderReadme ⟨sv2, ⟨id2, name, d2, target⟩, vars2, steps2, t2⟩) := by
  refine ⟨readme_sample, readme_sample_no_newline, readme_sample_usage, readme_other, ?_, ?_⟩
  · intro r
    refine ⟨"InstallForge bundle\\n===================\\n\\nProject: " ++ r.Project.Name
      ++ "\\nTargets: " ++ fmtStrings r.Project.Target, ?_, by decide⟩
    unfold renderReadme
    rw [String.append_assoc]
  · intros
    rfl

/-- C22: for an `extract_tar_gz` or `extract_zip` step the warning "creates is not set;
idempotency may be improved" is emitted once when the key `creates` is absent, and not at all
when the key is present, whatever its value. -/
theorem C22_creates_warning (tbl : Char → Char) (r : Recipe) (s : Step)
    (ht : s.Type_ = "extract_tar_gz" ∨ s.Type_ = "extract_zip") :
    (mapGet s.Config "creates" = none →
      withMessage (Validate tbl (withSteps r [s]))
          "creates is not set; idempotency may be improved"
        = [{ Level := "warn", StepID := s.ID,
             Message := "creates is not set; idempotency may be improved" }])
    ∧ (∀ v, mapGet s.Config "creates" = some v →
      withMessage (Validate tbl (withSteps r [s]))
          "creates is not set; idempotency may be improved" = []) := by
  rw [Validate_single, validateStep_extract tbl s ht, withMessage_append,
    withMessage_requireAll s _ _ (by decide), List.nil_append]
  constructor
  · intro h
    simp [absentIssues, h, withMessage]
  · intro v h
    simp [absentIssues, h, withMessage]

/-- C22 at an `extract_zip` step without `creates` and at an `extract_tar_gz` step whose
`creates` is the empty string. -/
theorem C22_creates_warning_witness :
    (extractNoCreates.Type_ = "extract_tar_gz" ∨ extractNoCreates.Type_ = "extract_zip")
    ∧ mapGet extractNoCreates.Config "creates" = none
    ∧ withMessage (Validate id (withSteps (sampleRecipe []) [extractNoCreates]))
          "creates is not set; idempotency may be improved"
        = [{ Level := "warn", StepID := "s3",
             Message := "creates is not set; idempotency may be improved" }]
    ∧ mapGet extractEmptyCreates.Config "creates" = some (Value.str "")
    ∧ withMessage (Validate id (withSteps (sampleRecipe []) [extractEmptyCreates]))
          "creates is not set; idempotency may be improved" = [] :=
  ⟨Or.inr rfl, rfl,
   (C22_creates_warning id (sampleRecipe []) extractNoCreates (Or.inr rfl)).1 rfl, rfl,
   (C22_creates_warning id (sampleRecipe []) extractEmptyCreates (Or.inl rfl)).2
      (Value.str "") rfl⟩

/-- C23: for an `append_lines`, `delete_lines` or `replace` step the warning "backup is
disabled; risk of data loss" is emitted, once, whenever `backup` is present with a value
other than the boolean `true` (a value that is not a boolean counts as disabled), and it is
not emitted when `backup` is absent or the boolean `true`. -/
theorem C23_backup_not_boolean (tbl : Char → Char) (r : Recipe) (s : Step)
    (ht : s.Type_ = "append_lines" ∨ s.Type_ = "delete_lines" ∨ s.Type_ = "replace") :
    (∀ v, mapGet s.Config "backup" = some v → v ≠ Value.bool true →
      withMessage (Validate tbl (withSteps r [s])) "backup is disabled; risk of data loss"
        = [{ Level := "warn", StepID := s.ID,
             Message := "backup is disabled; risk of data loss" }])
    ∧ ((mapGet s.Config "backup" = none ∨ mapGet s.Config "backup" = some (Value.bool true)) →
      withMessage (Validate tbl (withSteps r [s])) "backup is disabled; risk of data loss"
        = []) := by
  obtain ⟨pre, h1, _, _, h4⟩ := validateStep_lineEdit tbl s ht
  rw [Validate_single, h1, withMessage_append, h4, List.nil_append]
  constructor
  · intro v h hv
    rw [backupIssues_not_true s v h hv]
    simp [withMessage]
  · intro h
    rw [backupIssues_quiet s h]
    rfl

/-- C23 at an `append_lines` step whose `backup` is the string `true` and at a `replace`
step whose `backup` is the number 1. -/
theorem C23_backup_not_boolean_witness :
    (appendBackupString.Type_ = "append_lines" ∨ appendBackupString.Type_ = "delete_lines"
      ∨ appendBackupString.Type_ = "replace")
    ∧ mapGet appendBackupString.Config "backup" = some (Value.str "true")
    ∧ Value.str "true" ≠ Value.bool true
    ∧ withMessage (Validate id (withSteps (sampleRecipe []) [appendBackupString]))
          "backup is disabled; risk of data loss"
        = [{ Level := "warn", StepID := "s5",
             Message := "backup is disabled; risk of data loss" }]
    ∧ mapGet replaceBackupNumber.Config "backup" = some (Value.num goOne)
    ∧ withMessage (Validate id (withSteps (sampleRecipe []) [replaceBackupNumber]))
          "backup is disabled; risk of data loss"
        = [{ Level := "warn", StepID := "s1",
             Message := "backup is disabled; risk of data loss" }] :=
  ⟨Or.inl rfl, rfl, fun h => Value.noConfusion h,
   (C23_backup_not_boolean id (sampleRecipe []) appendBackupString (Or.inl rfl)).1
      (Value.str "true") rfl (fun h => Value.noConfusion h),
   rfl,
   (C23_backup_not_boolean id (sampleRecipe []) replaceBackupNumber (Or.inr (Or.inr rfl))).1
      (Value.num goOne) rfl (fun h => Value.noConfusion h)⟩

/-- C24: a key that is present with a value whose rendering is not empty never gets the error
"<key> is required"; the JSON null renders as `<nil>` and the empty list as `[]`, so both are
accepted. -/
theorem C24_present_value_accepted (tbl : Char → Char) (r : Recipe) (s : Step) (k : String)
    (v : Value) (h : mapGet s.Config k = some v) (hv : fmtV v ≠ "") :
    ({ Level := "error", StepID := s.ID, Message := k ++ " is required" } : Issue)
        ∉ Validate tbl (withSteps r [s])
    ∧ fmtV Value.null = "<nil>"
    ∧ fmtV (Value.arr []) = "[]" := by
  refine ⟨?_, rfl, rfl⟩
  rw [Validate_single]
  intro hm
  by_cases hk : s.Type_ ∈ knownTypes
  · obtain ⟨_, _, he⟩ := (required_issue_iff tbl s k _ hk).1 ⟨hm, rfl⟩
    rcases he with he | ⟨w, hw, hw2⟩
    · rw [h] at he
      exact Option.noConfusion he
    · rw [h] at hw
      cases hw
      exact hv hw2
  · rw [validateStep_unknown tbl [] s hk, List.nil_append, List.mem_singleton] at hm
    have hlev := congrArg Issue.Level hm
    simp at hlev

/-- C24 at a `mkdir` step whose `path` is null and at an `rpm_install` step whose `rpms` is
the empty list and whose `mode` is `install`: neither gets an issue. -/
theorem C24_present_value_accepted_witness :
    mapGet mkdirNullPath.Config "path" = some Value.null
    ∧ fmtV Value.null ≠ ""
    ∧ (({ Level := "error", StepID := "s1", Message := "path is required" } : Issue)
        ∉ Validate id (withSteps (sampleRecipe []) [mkdirNullPath]))
    ∧ Validate id (sampleRecipe [mkdirNullPath]) = []
    ∧ mapGet rpmEmptyList.Config "rpms" = some (Value.arr [])
    ∧ (({ Level := "error", StepID := "s2", Message := "rpms is required" } : Issue)
        ∉ Validate id (withSteps (sampleRecipe []) [rpmEmptyList]))
    ∧ Validate id (sampleRecipe [rpmEmptyList]) = [] :=
  ⟨rfl, by decide,
   (C24_present_value_accepted id (sampleRecipe []) mkdirNullPath "path" Value.null rfl
      (by decide)).1,
   by decide, rfl,
   (C24_present_value_accepted id (sampleRecipe []) rpmEmptyList "rpms" (Value.arr []) rfl
      (by decide)).1,
   by decide⟩

end InstallForge
